import Mathlib

/-!
Verification of the hacspec language typechecker
(`src/hacspec-lang/src/typechecker.rs`).

The typechecker operates on the AST defined in the crate's `rustspec`
module, which is not part of the sources under verification; the AST
types below are modelled from the specification (section 3, "DATA
MODEL") and from the way `typechecker.rs` destructures and rebuilds
them.  The checker itself (`is_copy`, `equal_types`, `check_vec`,
`typecheck_expression`, `typecheck_pattern`, `typecheck_statement`,
`typecheck_block`, `typecheck_item`, `typecheck_program`) is a direct
translation of the Rust source.  The `Session` diagnostic sink
(`sess.span_err`) is embedded as an explicit list of emitted
diagnostics returned alongside each result, and the persistent
`im::HashMap`/`im::HashSet` containers are embedded as association
lists whose operations reproduce the `im` semantics observable through
`get` (in particular `union` is left-biased: on a key collision the
value of the receiver map is kept).
-/

namespace Hacspec

/-- Modelled from the spec: every AST node "carr[ies] a source location
for diagnostics" (a `rustc` span).  Spans are opaque to the checker:
they are only copied around and printed, never inspected, so a bare
natural-number tag suffices. -/
structure Span where
  val : Nat
deriving DecidableEq

/-- Spans play no structural role, so they count 1 towards termination
measures. -/
instance : SizeOf Span := ⟨fun _ => 1⟩

@[simp] def Span.sizeOf_eq : ∀ (s : Span), sizeOf s = 1 := fun _ => rfl

/-- `Spanned<T> = (T, Span)` of the source crate. -/
abbrev Spanned (α : Type) := α × Span

/-- Modelled from the spec: identifiers of the surface language. -/
abbrev Ident := String

/-- Modelled from the spec: borrowing modes, "{Consumed, Borrowed}". -/
inductive Borrowing where
  | Consumed
  | Borrowed
deriving DecidableEq

mutual
/-- Modelled from the spec (section 3): the nominal base types.  The
payloads of `Seq` and `Tuple` are spanned, and `Named` carries a
qualified path with an optional single type argument, exactly as
`typechecker.rs` destructures them (`Seq(Box<Spanned<BaseTyp>>)`,
`Tuple(Vec<Spanned<BaseTyp>>)`, `Named(Path)`). -/
inductive BaseTyp where
  | Unit
  | Bool
  | UInt128
  | Int128
  | UInt64
  | Int64
  | UInt32
  | Int32
  | UInt16
  | Int16
  | UInt8
  | Int8
  | Usize
  | Isize
  | Seq (t : BaseTyp × Span)
  | Named (p : Path)
  | Tuple (ts : List (BaseTyp × Span))

/-- Modelled from the spec: a qualified path (list of spanned
segments) with an optional single type argument, as destructured by
`typechecker.rs` (`path.location`, `path.arg`). -/
inductive Path where
  | mk (location : List (Ident × Span)) (arg : Option BaseTyp)
end

/-- `Typ = (Spanned<Borrowing>, Spanned<BaseTyp>)` of the source. -/
abbrev Typ := Spanned Borrowing × Spanned BaseTyp

def Path.location : Path → List (Spanned Ident)
  | .mk l _ => l

def Path.arg : Path → Option BaseTyp
  | .mk _ a => a

/-- Modelled from the spec: literals; each kind maps to exactly one
base type.  The payload values are never inspected by the checker. -/
inductive Literal where
  | Bool (b : Bool)
  | Int128 (v : Int)
  | UInt128 (v : Nat)
  | Int64 (v : Int)
  | UInt64 (v : Nat)
  | Int32 (v : Int)
  | UInt32 (v : Nat)
  | Int16 (v : Int)
  | UInt16 (v : Nat)
  | Int8 (v : Int)
  | UInt8 (v : Nat)
  | Usize (v : Nat)
  | Isize (v : Int)

/-- Binary operator kinds are matched with `_` by the checker and never
inspected. -/
abbrev BinOpKind := Unit

/-- Unary operator kinds are matched with `_` by the checker and never
inspected. -/
abbrev UnOpKind := Unit

/-- Modelled from the spec: the expression grammar, with the exact
constructor payloads `typechecker.rs` matches on.  The second
`MethodCall` component is matched with `_` by the checker. -/
inductive Expression where
  | Tuple (args : List (Expression × Span))
  | Named (p : Path)
  | Binary (op : BinOpKind) (e1 : Expression × Span) (e2 : Expression × Span)
  | Unary (op : UnOpKind) (e1 : Expression × Span)
  | Lit (l : Literal)
  | ArrayIndex (e1 : Expression × Span) (e2 : Expression × Span)
  | FuncCall (f : Path × Span) (args : List (Expression × Span))
  | MethodCall (sel : Expression × Span) (t : Option Typ) (f : Ident × Span)
      (args : List (Expression × Span))

/-- Modelled from the spec: let-binding patterns. -/
inductive Pattern where
  | Tuple (pats : List (Pattern × Span))
  | WildCard
  | IdentPat (x : Ident)

/-- Modelled from the spec: only let-binding statements are in scope;
the remaining statement kinds of the source AST reach `unimplemented!()`
in the checker and are not modelled. -/
inductive Statement where
  | LetBinding (pat : Spanned Pattern) (typ : Option (Spanned Typ))
      (expr : Spanned Expression)

/-- Modelled from the spec: a block of statements, annotated after
checking with its mutated-variable set and result type. -/
structure Block where
  stmts : List (Spanned Statement)
  mutated_vars : Option (List Ident)
  return_typ : Option Typ

/-- Modelled from the spec: a function signature, an ordered
(parameter name, Typ) list plus a return base type (`typecheck_item`
seeds the context from `sig.args`, and call checking places `f_sig.ret`
in the `Spanned<BaseTyp>` slot of the result `Typ`). -/
structure FuncSig where
  args : List (Spanned Ident × Spanned Typ)
  ret : Spanned BaseTyp

/-- Modelled from the spec: top-level items. -/
inductive Item where
  | FnDecl (f : Spanned Ident) (sig : FuncSig) (b : Spanned Block)
  | Use (p : Path)

/-- Modelled from the spec: a program is an ordered sequence of
spanned items. -/
abbrev Program := List (Spanned Item)

/-- `FnKey` of the source: `Static(name)` or
`Method(receiver-base-type, name)`. -/
inductive FnKey where
  | Static (x : Ident)
  | Method (t : BaseTyp) (x : Ident)

/-!  Raw equality.  The checker compares base types with the derived
`PartialEq` (`(arg_t.1).0 != (sig_t.1).0`), which is structural
equality including the spans stored inside compound types, and `FnKey`
lookups use the derived equality as well.  `beq_base` reproduces it. -/

mutual
/-- Derived `PartialEq` on `BaseTyp` (structural, spans included). -/
def beq_base : BaseTyp → BaseTyp → Bool
  | BaseTyp.Unit, BaseTyp.Unit => true
  | BaseTyp.Bool, BaseTyp.Bool => true
  | BaseTyp.UInt128, BaseTyp.UInt128 => true
  | BaseTyp.Int128, BaseTyp.Int128 => true
  | BaseTyp.UInt64, BaseTyp.UInt64 => true
  | BaseTyp.Int64, BaseTyp.Int64 => true
  | BaseTyp.UInt32, BaseTyp.UInt32 => true
  | BaseTyp.Int32, BaseTyp.Int32 => true
  | BaseTyp.UInt16, BaseTyp.UInt16 => true
  | BaseTyp.Int16, BaseTyp.Int16 => true
  | BaseTyp.UInt8, BaseTyp.UInt8 => true
  | BaseTyp.Int8, BaseTyp.Int8 => true
  | BaseTyp.Usize, BaseTyp.Usize => true
  | BaseTyp.Isize, BaseTyp.Isize => true
  | BaseTyp.Seq (t1, sp1), BaseTyp.Seq (t2, sp2) => beq_base t1 t2 && sp1 == sp2
  | BaseTyp.Named (Path.mk loc1 arg1), BaseTyp.Named (Path.mk loc2 arg2) =>
    loc1 == loc2 && beq_base_opt arg1 arg2
  | BaseTyp.Tuple ts1, BaseTyp.Tuple ts2 => beq_base_list ts1 ts2
  | _, _ => false

/-- Derived `PartialEq` on `Option<BaseTyp>`. -/
def beq_base_opt : Option BaseTyp → Option BaseTyp → Bool
  | none, none => true
  | some t1, some t2 => beq_base t1 t2
  | _, _ => false

/-- Derived `PartialEq` on `Vec<Spanned<BaseTyp>>`. -/
def beq_base_list : List (BaseTyp × Span) → List (BaseTyp × Span) → Bool
  | [], [] => true
  | (t1, sp1) :: r1, (t2, sp2) :: r2 => beq_base t1 t2 && sp1 == sp2 && beq_base_list r1 r2
  | _, _ => false
end

/-- Derived `PartialEq` on `FnKey` (used by the `im::HashMap` signature
table lookups). -/
def beq_fnkey : FnKey → FnKey → Bool
  | FnKey.Static x, FnKey.Static y => x == y
  | FnKey.Method t x, FnKey.Method s y => beq_base t s && x == y
  | _, _ => false

/-!  Persistent maps.  `FnContext = HashMap<FnKey, FuncSig>`,
`VarContext = HashMap<Ident, Typ>` and `VarSet = HashSet<Ident>` of the
`im` crate are embedded as association lists.  Lookup returns the
leftmost binding; `update` prepends (insert-or-replace under leftmost
lookup); `without` removes the key; `union` is the `im` left-biased
union: "keeping the values in the current map when keys exist in both
maps". -/

abbrev FnContext := List (FnKey × FuncSig)

abbrev VarContext := List (Ident × Typ)

abbrev VarSet := List Ident

/-- `im::HashMap::get` on the signature table. -/
def lookup_fn (m : FnContext) (k : FnKey) : Option FuncSig :=
  (m.find? (fun p => beq_fnkey p.fst k)).map Prod.snd

/-- `im::HashMap::update` on the signature table. -/
def update_fn (m : FnContext) (k : FnKey) (v : FuncSig) : FnContext :=
  (k, v) :: m

/-- `im::HashMap::get` on a variable context. -/
def lookup_var (m : VarContext) (x : Ident) : Option Typ :=
  (m.find? (fun p => p.fst == x)).map Prod.snd

/-- `im::HashMap::without` on a variable context. -/
def without_var (m : VarContext) (x : Ident) : VarContext :=
  m.filter (fun p => !(p.fst == x))

/-- `im::HashMap::update` on a variable context. -/
def update_var (m : VarContext) (x : Ident) (t : Typ) : VarContext :=
  (x, t) :: m

/-- `im::HashMap::unit`. -/
def unit_var (x : Ident) (t : Typ) : VarContext :=
  [(x, t)]

/-- `im::HashMap::union`, left-biased (the receiver's binding wins on a
collision); with leftmost lookup this is list concatenation. -/
def union_var (m1 m2 : VarContext) : VarContext :=
  m1 ++ m2

/-- `im::HashSet::union`. -/
def union_set (s1 s2 : VarSet) : VarSet :=
  s1 ++ s2.filter (fun x => !(s1.contains x))

mutual
/-- `fn is_copy(t: &BaseTyp) -> bool` (typechecker.rs lines 5-26), with
the `ts.iter().all(..)` of the `Tuple` arm unfolded into
`is_copy_list`. -/
def is_copy : BaseTyp → Bool
  | BaseTyp.Unit => true
  | BaseTyp.Bool => true
  | BaseTyp.UInt128 => true
  | BaseTyp.Int128 => true
  | BaseTyp.UInt64 => true
  | BaseTyp.Int64 => true
  | BaseTyp.UInt32 => true
  | BaseTyp.Int32 => true
  | BaseTyp.UInt16 => true
  | BaseTyp.Int16 => true
  | BaseTyp.UInt8 => true
  | BaseTyp.Int8 => true
  | BaseTyp.Usize => true
  | BaseTyp.Isize => true
  | BaseTyp.Seq _ => false
  | BaseTyp.Named _ => false
  | BaseTyp.Tuple ts => is_copy_list ts

/-- `ts.iter().all(|(t, _)| is_copy(t))` of the `Tuple` arm. -/
def is_copy_list : List (Spanned BaseTyp) → Bool
  | [] => true
  | t :: ts => is_copy t.fst && is_copy_list ts
end

mutual
/-- `fn equal_types(t1: &Typ, t2: &Typ) -> bool` (typechecker.rs lines
28-80).  The `Seq`, `Named` and `Tuple` arms recurse through
`equal_types` on rebuilt `Consumed`-mode operands exactly as the
source does; the `ts1.iter().zip(ts2).all(..)` of the `Tuple` arm is
unfolded into `equal_types_zip`. -/
def equal_types : Typ → Typ → Bool
  | ((b1, _), (bt1, s1)), ((b2, _), (bt2, s2)) =>
    match b1, b2 with
    | Borrowing.Consumed, Borrowing.Consumed
    | Borrowing.Borrowed, Borrowing.Borrowed =>
      match bt1, bt2 with
      | BaseTyp.Unit, BaseTyp.Unit => true
      | BaseTyp.Bool, BaseTyp.Bool => true
      | BaseTyp.UInt128, BaseTyp.UInt128 => true
      | BaseTyp.Int128, BaseTyp.Int128 => true
      | BaseTyp.UInt64, BaseTyp.UInt64 => true
      | BaseTyp.Int64, BaseTyp.Int64 => true
      | BaseTyp.UInt32, BaseTyp.UInt32 => true
      | BaseTyp.Int32, BaseTyp.Int32 => true
      | BaseTyp.UInt16, BaseTyp.UInt16 => true
      | BaseTyp.Int16, BaseTyp.Int16 => true
      | BaseTyp.UInt8, BaseTyp.UInt8 => true
      | BaseTyp.Int8, BaseTyp.Int8 => true
      | BaseTyp.Usize, BaseTyp.Usize => true
      | BaseTyp.Isize, BaseTyp.Isize => true
      | BaseTyp.Seq tc1, BaseTyp.Seq tc2 =>
        equal_types ((Borrowing.Consumed, s1), tc1) ((Borrowing.Consumed, s2), tc2)
      | BaseTyp.Named (Path.mk loc1 arg1), BaseTyp.Named (Path.mk loc2 arg2) =>
        loc1.length == loc2.length
        && (loc1.zip loc2).all (fun q => q.fst == q.snd)
        && (match arg1, arg2 with
            | none, none => true
            | some tc1, some tc2 =>
              equal_types ((Borrowing.Consumed, s1), (tc1, s1))
                ((Borrowing.Consumed, s2), (tc2, s2))
            | _, _ => false)
      | BaseTyp.Tuple ts1, BaseTyp.Tuple ts2 =>
        ts1.length == ts2.length && equal_types_zip s1 s2 ts1 ts2
      | _, _ => false
    | _, _ => false
termination_by t1 t2 => sizeOf t1 + sizeOf t2
decreasing_by all_goals (simp_wf <;> (try simp) <;> omega)

/-- `ts1.iter().zip(ts2.iter()).all(..)` of the `Tuple` arm of
`equal_types`. -/
def equal_types_zip (s1 s2 : Span) : List (Spanned BaseTyp) → List (Spanned BaseTyp) → Bool
  | tc1 :: rest1, tc2 :: rest2 =>
    equal_types ((Borrowing.Consumed, s1), tc1) ((Borrowing.Consumed, s2), tc2)
    && equal_types_zip s1 s2 rest1 rest2
  | _, _ => true
termination_by l1 l2 => sizeOf l1 + sizeOf l2 + 7
decreasing_by all_goals (simp_wf <;> (try simp) <;> omega)
end

/-!  Diagnostics.  `sess.span_err(span, message)` emissions are
embedded as constructors carrying the span and the values interpolated
into the message. -/

/-- One `sess.span_err` emission of typechecker.rs, by call site. -/
inductive Diag where
  | borrowedInTuple (sp : Span)
  | unknownVar (x : Ident) (sp : Span)
  | unknownPathVar (p : Path) (sp : Span)
  | binaryMismatch (t1 t2 : Typ) (sp : Span)
  | borrowedIndex (sp : Span)
  | nonIntegerIndex (t : Typ) (sp : Span)
  | nonSeqIndexed (t : Typ) (sp : Span)
  | unknownFunction (f : Path) (sp : Span)
  | callArityMismatch (f : Path) (expected got : Nat) (sp : Span)
  | foreignFunctionCall (sp : Span)
  | expectedBorrow (sp : Span)
  | superfluousBorrow (sp : Span)
  | argTypeMismatch (expected found : BaseTyp) (sp : Span)
  | unknownMethod (t : BaseTyp) (f : Ident) (sp : Span)
  | methodArityMismatch (t : BaseTyp) (f : Ident) (expected got : Nat) (sp : Span)
  | patternArityMismatch (got expected : Nat) (sp : Span)
  | patternTupleMismatch (t : BaseTyp) (sp : Span)
  | letTypeMismatch (declared found : Typ) (sp : Span)
  | statementNotUnit (sp : Span)

/-- `TypecheckingResult<T> = Result<T, ()>`. -/
abbrev TcResult (α : Type) := Except Unit α

/-- `fn check_vec<T>(v: Vec<TypecheckingResult<T>>) ->
TypecheckingResult<Vec<T>>` (typechecker.rs lines 96-102): `Ok` with
the unwrapped values if every entry is `Ok`, else `Err(())`. -/
def check_vec {α : Type} (v : List (TcResult α)) : TcResult (List α) :=
  if v.all (fun t => t.isOk) then
    Except.ok (v.filterMap (fun t => t.toOption))
  else
    Except.error ()

/-- Facts about the sizes of spans and lists, used by the termination
arguments of the recursive definitions below (in particular the
`MethodCall` arm appends the receiver to the argument list). -/
def sizeOf_list_pos {α : Type} [SizeOf α] : ∀ (l : List α), 1 ≤ sizeOf l := by
  intro l
  cases l <;> simp <;> omega

def sizeOf_list_append {α : Type} [SizeOf α] :
    ∀ (l1 l2 : List α), sizeOf (l1 ++ l2) = sizeOf l1 + sizeOf l2 - 1 := by
  intro l1 l2
  have h2 := sizeOf_list_pos l2
  induction l1 with
  | nil => simp [List.nil_append]
  | cons x xs ih => simp [List.cons_append, ih]; omega

mutual
/-- `fn typecheck_expression` (typechecker.rs lines 104-464).  Returns
the emitted diagnostics alongside the `Result`.  The `Tuple` arm's
`args.iter().map(..).collect()` with its threaded mutable context is
unfolded into `typecheck_tuple_args`; the argument-checking `for` loop
shared (textually duplicated in the source) by the `FuncCall` and
`MethodCall` arms is unfolded into `typecheck_args`. -/
def typecheck_expression (es : Spanned Expression) (fn_context : FnContext)
    (var_context : VarContext) : List Diag × TcResult (Typ × VarContext) :=
  match es with
  | (e, span) =>
    match e with
    | Expression.Tuple args =>
      match typecheck_tuple_args args fn_context var_context with
      | (ds, typ_args, var_context1) =>
        match check_vec typ_args with
        | Except.error _ => (ds, Except.error ())
        | Except.ok typ_args =>
          (ds, Except.ok (((Borrowing.Consumed, span), (BaseTyp.Tuple typ_args, span)),
            var_context1))
    | Expression.Named p =>
      match p with
      | Path.mk loc arg =>
        match arg, loc with
        | none, [(id, _)] =>
          match lookup_var var_context id with
          | none => ([Diag.unknownVar id span], Except.error ())
          | some t =>
            -- This is where linearity kicks in
            match t.fst.fst with
            | Borrowing.Consumed =>
              if is_copy t.snd.fst then
                ([], Except.ok (t, var_context))
              else
                ([], Except.ok (t, without_var var_context id))
            | Borrowing.Borrowed => ([], Except.ok (t, var_context))
        | _, _ => ([Diag.unknownPathVar p span], Except.error ())
    | Expression.Binary _ e1 e2 =>
      match typecheck_expression e1 fn_context var_context with
      | (ds1, Except.error _) => (ds1, Except.error ())
      | (ds1, Except.ok (t1, var_context1)) =>
        match typecheck_expression e2 fn_context var_context1 with
        | (ds2, Except.error _) => (ds1 ++ ds2, Except.error ())
        | (ds2, Except.ok (t2, var_context2)) =>
          if !(equal_types t1 t2) then
            (ds1 ++ ds2 ++ [Diag.binaryMismatch t1 t2 span], Except.error ())
          else
            (ds1 ++ ds2, Except.ok (t1, var_context2))
    | Expression.Unary _ e1 => typecheck_expression e1 fn_context var_context
    | Expression.Lit lit =>
      match lit with
      | Literal.Bool _ =>
        ([], Except.ok (((Borrowing.Consumed, span), (BaseTyp.Bool, span)), var_context))
      | Literal.Int128 _ =>
        ([], Except.ok (((Borrowing.Consumed, span), (BaseTyp.Int128, span)), var_context))
      | Literal.UInt128 _ =>
        ([], Except.ok (((Borrowing.Consumed, span), (BaseTyp.UInt128, span)), var_context))
      | Literal.Int64 _ =>
        ([], Except.ok (((Borrowing.Consumed, span), (BaseTyp.Int64, span)), var_context))
      | Literal.UInt64 _ =>
        ([], Except.ok (((Borrowing.Consumed, span), (BaseTyp.UInt64, span)), var_context))
      | Literal.Int32 _ =>
        ([], Except.ok (((Borrowing.Consumed, span), (BaseTyp.Int32, span)), var_context))
      | Literal.UInt32 _ =>
        ([], Except.ok (((Borrowing.Consumed, span), (BaseTyp.UInt32, span)), var_context))
      | Literal.Int16 _ =>
        ([], Except.ok (((Borrowing.Consumed, span), (BaseTyp.Int16, span)), var_context))
      | Literal.UInt16 _ =>
        ([], Except.ok (((Borrowing.Consumed, span), (BaseTyp.UInt16, span)), var_context))
      | Literal.Int8 _ =>
        ([], Except.ok (((Borrowing.Consumed, span), (BaseTyp.Int8, span)), var_context))
      | Literal.UInt8 _ =>
        ([], Except.ok (((Borrowing.Consumed, span), (BaseTyp.UInt8, span)), var_context))
      | Literal.Usize _ =>
        ([], Except.ok (((Borrowing.Consumed, span), (BaseTyp.Usize, span)), var_context))
      | Literal.Isize _ =>
        ([], Except.ok (((Borrowing.Consumed, span), (BaseTyp.Isize, span)), var_context))
    | Expression.ArrayIndex e1 e2 =>
      match typecheck_expression e1 fn_context var_context with
      | (ds1, Except.error _) => (ds1, Except.error ())
      | (ds1, Except.ok (t1, var_context1)) =>
        match typecheck_expression e2 fn_context var_context1 with
        | (ds2, Except.error _) => (ds1 ++ ds2, Except.error ())
        | (ds2, Except.ok (t2, var_context2)) =>
          -- We ignore t1.0 because we can read from both consumed and borrowed array types
          match t1.snd.fst with
          | BaseTyp.Seq seq_t =>
            match seq_t with
            | (cell_t, cell_t_span) =>
              match t2.fst.fst with
              | Borrowing.Borrowed =>
                (ds1 ++ ds2 ++ [Diag.borrowedIndex e2.snd], Except.error ())
              | Borrowing.Consumed =>
                match t2.snd.fst with
                | BaseTyp.UInt128 | BaseTyp.Int128 | BaseTyp.UInt64 | BaseTyp.Int64
                | BaseTyp.UInt32 | BaseTyp.Int32 | BaseTyp.UInt16 | BaseTyp.Int16
                | BaseTyp.UInt8 | BaseTyp.Int8 | BaseTyp.Usize | BaseTyp.Isize =>
                  (ds1 ++ ds2,
                    Except.ok (((Borrowing.Consumed, t1.fst.snd), (cell_t, cell_t_span)),
                      var_context2))
                | _ =>
                  (ds1 ++ ds2 ++ [Diag.nonIntegerIndex t2 e2.snd], Except.error ())
          | _ => (ds1 ++ ds2 ++ [Diag.nonSeqIndexed t1 e1.snd], Except.error ())
    | Expression.FuncCall fpair args =>
      match fpair with
      | (f, f_span) =>
        match f with
        | Path.mk loc fargp =>
          match fargp, loc with
          | none, [(id, _)] =>
            match lookup_fn fn_context (FnKey.Static id) with
            | none => ([Diag.unknownFunction f f_span], Except.error ())
            | some f_sig =>
              match (if f_sig.args.length ≠ args.length then
                  [Diag.callArityMismatch f f_sig.args.length args.length span]
                else []) with
              | arity_ds =>
                match typecheck_args f_sig.args args fn_context var_context with
                | (ds, Except.error _) => (arity_ds ++ ds, Except.error ())
                | (ds, Except.ok var_context1) =>
                  (arity_ds ++ ds,
                    Except.ok (((Borrowing.Consumed, f_span), f_sig.ret), var_context1))
          | _, _ => ([Diag.foreignFunctionCall f_span], Except.error ())
    | Expression.MethodCall sel _ fpair args =>
      match fpair with
      | (f, f_span) =>
        match typecheck_expression sel fn_context var_context with
        | (ds0, Except.error _) => (ds0, Except.error ())
        | (ds0, Except.ok (sel_typ, var_context1)) =>
          match lookup_fn fn_context (FnKey.Method sel_typ.snd.fst f) with
          | none =>
            (ds0 ++ [Diag.unknownMethod sel_typ.snd.fst f f_span], Except.error ())
          | some f_sig =>
            match args ++ [sel] with
            | args1 =>
              match (if f_sig.args.length ≠ args1.length then
                  [Diag.methodArityMismatch sel_typ.snd.fst f f_sig.args.length
                    args1.length span]
                else []) with
              | arity_ds =>
                match typecheck_args f_sig.args args1 fn_context var_context1 with
                | (ds, Except.error _) => (ds0 ++ arity_ds ++ ds, Except.error ())
                | (ds, Except.ok var_context2) =>
                  (ds0 ++ arity_ds ++ ds,
                    Except.ok (((Borrowing.Consumed, f_span), f_sig.ret), var_context2))
termination_by sizeOf es
decreasing_by all_goals (simp_wf <;> (try simp [sizeOf_list_append]) <;> omega)

/-- The `Tuple` arm's `args.iter().map(..).collect()` of
`typecheck_expression` with its threaded mutable `var_context`: each
element is checked against the context left by the last successful
element (a failing element leaves the context unchanged, and iteration
continues), the context is updated on expression success before the
borrowing check, and the per-element `Result`s are collected for
`check_vec`. -/
def typecheck_tuple_args (args : List (Spanned Expression)) (fn_context : FnContext)
    (var_context : VarContext) :
    List Diag × List (TcResult (Spanned BaseTyp)) × VarContext :=
  match args with
  | [] => ([], [], var_context)
  | arg :: rest =>
    match typecheck_expression arg fn_context var_context with
    | (ds, Except.error _) =>
      match typecheck_tuple_args rest fn_context var_context with
      | (ds1, results, ctx1) => (ds ++ ds1, Except.error () :: results, ctx1)
    | (ds, Except.ok (((arg_typ_borrowing, _), arg_typ), new_var_context)) =>
      match arg_typ_borrowing with
      | Borrowing.Borrowed =>
        match typecheck_tuple_args rest fn_context new_var_context with
        | (ds1, results, ctx1) =>
          (ds ++ [Diag.borrowedInTuple arg.snd] ++ ds1, Except.error () :: results, ctx1)
      | Borrowing.Consumed =>
        match typecheck_tuple_args rest fn_context new_var_context with
        | (ds1, results, ctx1) => (ds ++ ds1, Except.ok arg_typ :: results, ctx1)
termination_by sizeOf args
decreasing_by all_goals (simp_wf <;> (try simp [sizeOf_list_append]) <;> omega)

/-- The argument-checking loop
`for ((_, (sig_t, _)), (arg, arg_span)) in f_sig.args.iter().zip(args)`
of the `FuncCall` and `MethodCall` arms of `typecheck_expression`
(typechecker.rs lines 358-387 and 431-457, textually duplicated in the
source): the zip stops at the shorter list, each argument is checked
against the threaded context, borrow-mode and raw base-type mismatches
abort, and on completion the threaded context is returned. -/
def typecheck_args (sig_args : List (Spanned Ident × Spanned Typ))
    (args : List (Spanned Expression)) (fn_context : FnContext)
    (var_context : VarContext) : List Diag × TcResult VarContext :=
  match sig_args, args with
  | (_, (sig_t, _)) :: sig_rest, (arg, arg_span) :: args_rest =>
    match typecheck_expression (arg, arg_span) fn_context var_context with
    | (ds, Except.error _) => (ds, Except.error ())
    | (ds, Except.ok (arg_t, new_var_context)) =>
      match arg_t.fst.fst, sig_t.fst.fst with
      | Borrowing.Consumed, Borrowing.Borrowed =>
        (ds ++ [Diag.expectedBorrow arg_span], Except.error ())
      | Borrowing.Borrowed, Borrowing.Consumed =>
        (ds ++ [Diag.superfluousBorrow arg_span], Except.error ())
      | _, _ =>
        if !(beq_base arg_t.snd.fst sig_t.snd.fst) then
          (ds ++ [Diag.argTypeMismatch sig_t.snd.fst arg_t.snd.fst arg_span],
            Except.error ())
        else
          match typecheck_args sig_rest args_rest fn_context new_var_context with
          | (ds1, r) => (ds ++ ds1, r)
  | _, _ => ([], Except.ok var_context)
termination_by sizeOf args
decreasing_by all_goals (simp_wf <;> (try simp [sizeOf_list_append]) <;> omega)
end

mutual
/-- `fn typecheck_pattern` (typechecker.rs lines 466-509).  The
`fold` over `pat_args.iter().zip(typ_args.iter())` of the tuple arm is
unfolded into `typecheck_pattern_fold`. -/
def typecheck_pattern (ps : Spanned Pattern) (bt : Typ) :
    List Diag × TcResult VarContext :=
  match ps, bt with
  | (pat, pat_span), (borrowing_typ, typ) =>
    match pat, typ.fst with
    | Pattern.Tuple pat_args, BaseTyp.Tuple typ_args =>
      match (if pat_args.length ≠ typ_args.length then
          [Diag.patternArityMismatch pat_args.length typ_args.length pat_span]
        else []) with
      | arity_ds =>
        match typecheck_pattern_fold (Except.ok []) pat_args typ_args pat_span with
        | (ds, r) => (arity_ds ++ ds, r)
    | Pattern.Tuple _, _ =>
      ([Diag.patternTupleMismatch typ.fst pat_span], Except.error ())
    | Pattern.WildCard, _ => ([], Except.ok [])
    | Pattern.IdentPat x, _ => ([], Except.ok (unit_var x (borrowing_typ, typ)))
termination_by sizeOf ps
decreasing_by all_goals (simp_wf <;> (try simp) <;> omega)

/-- The tuple arm's
`pat_args.iter().zip(typ_args.iter()).fold(Ok(HashMap::new()), ..)`:
each sub-pattern is bound against its element type forced `Consumed`;
a failing sub-pattern turns the accumulator to `Err` but iteration
(and diagnostic emission) continues; on success the accumulated
bindings are `union`ed left-biased with the new sub-bindings. -/
def typecheck_pattern_fold (acc : TcResult VarContext)
    (pat_args : List (Spanned Pattern)) (typ_args : List (Spanned BaseTyp))
    (pat_span : Span) : List Diag × TcResult VarContext :=
  match pat_args, typ_args with
  | pat_arg :: pats_rest, typ_arg :: typs_rest =>
    match typecheck_pattern pat_arg ((Borrowing.Consumed, pat_span), typ_arg) with
    | (ds, Except.error _) =>
      match typecheck_pattern_fold (Except.error ()) pats_rest typs_rest pat_span with
      | (ds1, r) => (ds ++ ds1, r)
    | (ds, Except.ok sub_var_context) =>
      match (match acc with
        | Except.error _ => (Except.error () : TcResult VarContext)
        | Except.ok a => Except.ok (union_var a sub_var_context)) with
      | acc1 =>
        match typecheck_pattern_fold acc1 pats_rest typs_rest pat_span with
        | (ds1, r) => (ds ++ ds1, r)
  | _, _ => ([], acc)
termination_by sizeOf pat_args
decreasing_by all_goals (simp_wf <;> (try simp) <;> omega)
end

/-- `fn typecheck_statement` (typechecker.rs lines 511-550); only the
`LetBinding` kind exists.  The optional declared-type check and the
pattern binding follow the expression check; the new bindings are
`union`ed into the post-expression context (left-biased, so the
post-expression context's binding wins on a collision). -/
def typecheck_statement (ss : Spanned Statement) (fn_context : FnContext)
    (var_context : VarContext) : List Diag × TcResult (Typ × VarContext × VarSet) :=
  match ss with
  | (Statement.LetBinding (pat, pat_span) typ expr, s_span) =>
    match typecheck_expression expr fn_context var_context with
    | (ds, Except.error _) => (ds, Except.error ())
    | (ds, Except.ok (expr_typ, new_var_context)) =>
      match (match typ with
        | none => ([], Except.ok ())
        | some (t, _) =>
          if !(equal_types t expr_typ) then
            ([Diag.letTypeMismatch t expr_typ pat_span],
              (Except.error () : TcResult Unit))
          else ([], Except.ok ())) with
      | (ds1, Except.error _) => (ds ++ ds1, Except.error ())
      | (ds1, Except.ok _) =>
        match typecheck_pattern (pat, pat_span) expr_typ with
        | (ds2, Except.error _) => (ds ++ ds1 ++ ds2, Except.error ())
        | (ds2, Except.ok pat_var_context) =>
          (ds ++ ds1 ++ ds2,
            Except.ok (((Borrowing.Consumed, s_span), (BaseTyp.Unit, s_span)),
              union_var new_var_context pat_var_context, []))

/-- The statement loop of `fn typecheck_block` (typechecker.rs lines
561-578): statements are checked in order threading the context and
unioning mutated sets; every statement before the last must have type
`(Consumed, Unit)`; the last statement's type becomes the block's
return type (`none` for an empty block). -/
def typecheck_block_stmts (stmts : List (Spanned Statement)) (fn_context : FnContext)
    (var_context : VarContext) (mutated_vars : VarSet) (return_typ : Option Typ) :
    List Diag × TcResult (VarSet × Option Typ) :=
  match stmts with
  | [] => ([], Except.ok (mutated_vars, return_typ))
  | s :: rest =>
    match typecheck_statement s fn_context var_context with
    | (ds, Except.error _) => (ds, Except.error ())
    | (ds, Except.ok (stmt_typ, new_var_context, new_mutated_vars)) =>
      match union_set mutated_vars new_mutated_vars with
      | mutated1 =>
        match rest with
        | [] => (ds, Except.ok (mutated1, some stmt_typ))
        | _ :: _ =>
          match stmt_typ with
          | ((Borrowing.Consumed, _), (BaseTyp.Unit, _)) =>
            match typecheck_block_stmts rest fn_context new_var_context mutated1
                return_typ with
            | (ds1, r) => (ds ++ ds1, r)
          | _ => (ds ++ [Diag.statementNotUnit s.snd], Except.error ())

/-- `fn typecheck_block` (typechecker.rs lines 552-586): runs the
statement loop from the given context and, on success, returns the
block annotated with its mutated-variable set and return type.  The
final context is deliberately not returned ("the block is the scope of
the variables defined inside it"). -/
def typecheck_block (b : Block) (fn_context : FnContext) (var_context : VarContext) :
    List Diag × TcResult Block :=
  match typecheck_block_stmts b.stmts fn_context var_context [] none with
  | (ds, Except.error _) => (ds, Except.error ())
  | (ds, Except.ok (mutated_vars, return_typ)) =>
    (ds, Except.ok (Block.mk b.stmts (some mutated_vars) return_typ))

/-- `fn typecheck_item` (typechecker.rs lines 588-613): a function
declaration seeds a fresh context from its declared parameters, checks
the body against the signature table as given (the function's own
signature is not yet registered), and only on success registers the
signature under a `Static` key; a `Use` item passes through
unchanged. -/
def typecheck_item (i : Item) (fn_context : FnContext) :
    List Diag × TcResult (Item × FnContext) :=
  match i with
  | Item.FnDecl (f, f_span) sig (b, b_span) =>
    match sig.args.foldl
        (fun var_context q =>
          match q with
          | ((x, _), (t, _)) => update_var var_context x t) ([] : VarContext) with
    | var_context =>
      match typecheck_block b fn_context var_context with
      | (ds, Except.error _) => (ds, Except.error ())
      | (ds, Except.ok b1) =>
        (ds, Except.ok (Item.FnDecl (f, f_span) sig (b1, b_span),
          update_fn fn_context (FnKey.Static f) sig))
  | Item.Use p => ([], Except.ok (Item.Use p, fn_context))

/-- The `p.into_iter().map(..)` of `fn typecheck_program` with its
threaded mutable `fn_context`: every item is processed (the `collect`
into `Vec<TypecheckingResult<..>>` does not short-circuit), a failing
item leaves the signature table unchanged, and the per-item `Result`s
are collected for `check_vec`. -/
def typecheck_program_items (fn_context : FnContext) (p : Program) :
    List Diag × List (TcResult (Spanned Item)) :=
  match p with
  | [] => ([], [])
  | (i, i_span) :: rest =>
    match typecheck_item i fn_context with
    | (ds, Except.error _) =>
      match typecheck_program_items fn_context rest with
      | (ds1, results) => (ds ++ ds1, Except.error () :: results)
    | (ds, Except.ok (new_i, new_fn_context)) =>
      match typecheck_program_items new_fn_context rest with
      | (ds1, results) => (ds ++ ds1, Except.ok (new_i, i_span) :: results)

/-- `pub fn typecheck_program` (typechecker.rs lines 615-626): maps the
item checker over the program threading one signature table (starting
empty) and aggregates the collected per-item results with
`check_vec`. -/
def typecheck_program (p : Program) : List Diag × TcResult Program :=
  match typecheck_program_items [] p with
  | (ds, results) => (ds, check_vec results)

/-- `ctx1` is a restriction of `ctx`: every binding of `ctx1` is
present in `ctx` with the same type. -/
def Restricts (ctx1 ctx : VarContext) : Prop :=
  ∀ x t, lookup_var ctx1 x = some t → lookup_var ctx x = some t

/-- The integer base types of the grammar (the signed and unsigned
fixed widths and the pointer-sized widths), as enumerated by the
sequence-index arm of `typecheck_expression`. -/
def is_int_base : BaseTyp → Bool
  | BaseTyp.UInt128 | BaseTyp.Int128 | BaseTyp.UInt64 | BaseTyp.Int64
  | BaseTyp.UInt32 | BaseTyp.Int32 | BaseTyp.UInt16 | BaseTyp.Int16
  | BaseTyp.UInt8 | BaseTyp.Int8 | BaseTyp.Usize | BaseTyp.Isize => true
  | _ => false

/-- Restriction property of a full expression-checking result: on
success the returned context is a restriction of the input context
(failures carry no context). -/
def RestrictsOut : TcResult (Typ × VarContext) → VarContext → Prop
  | Except.ok (_, ctx1), ctx => Restricts ctx1 ctx
  | Except.error _, _ => True

/-- Restriction property of an argument-loop result. -/
def RestrictsArgsOut : TcResult VarContext → VarContext → Prop
  | Except.ok ctx1, ctx => Restricts ctx1 ctx
  | Except.error _, _ => True

/-!  Lemmas about the association-list embeddings of the `im` maps. -/

theorem lookup_var_union (m1 m2 : VarContext) (x : Ident) :
    lookup_var (union_var m1 m2) x = (lookup_var m1 x).or (lookup_var m2 x) := by
  simp only [lookup_var, union_var, List.find?_append]
  cases List.find? (fun p => p.fst == x) m1 <;> simp

theorem lookup_var_cons (q : Ident × Typ) (rest : VarContext) (y : Ident) :
    lookup_var (q :: rest) y = if q.fst = y then some q.snd else lookup_var rest y := by
  by_cases hq : q.fst = y <;> simp [lookup_var, hq]

theorem without_var_cons (q : Ident × Typ) (rest : VarContext) (x : Ident) :
    without_var (q :: rest) x =
      if q.fst = x then without_var rest x else q :: without_var rest x := by
  by_cases hq : q.fst = x <;> simp [without_var, List.filter_cons, hq]

theorem lookup_var_without_self (m : VarContext) (x : Ident) :
    lookup_var (without_var m x) x = none := by
  induction m with
  | nil => rfl
  | cons p rest ih =>
    rw [without_var_cons]
    by_cases h : p.fst = x
    · simpa [h] using ih
    · rw [if_neg h, lookup_var_cons, if_neg h]
      exact ih

theorem lookup_var_without_ne (m : VarContext) (x y : Ident) (h : y ≠ x) :
    lookup_var (without_var m x) y = lookup_var m y := by
  induction m with
  | nil => rfl
  | cons p rest ih =>
    rw [without_var_cons, lookup_var_cons]
    by_cases hx : p.fst = x
    · have hy : ¬(p.fst = y) := by
        intro hc
        rw [← hc] at h
        exact h hx
      rw [if_pos hx, if_neg hy]
      exact ih
    · rw [if_neg hx, lookup_var_cons]
      by_cases hy : p.fst = y
      · rw [if_pos hy, if_pos hy]
      · rw [if_neg hy, if_neg hy]
        exact ih

theorem lookup_var_unit (x y : Ident) (t : Typ) :
    lookup_var (unit_var x t) y = if x = y then some t else none := by
  by_cases h : x = y <;> simp [lookup_var, unit_var, h]

theorem lookup_var_update_self (m : VarContext) (x : Ident) (t : Typ) :
    lookup_var (update_var m x t) x = some t := by
  simp [lookup_var, update_var]

theorem lookup_fn_update_static (m : FnContext) (f : Ident) (sig : FuncSig) :
    lookup_fn (update_fn m (FnKey.Static f) sig) (FnKey.Static f) = some sig := by
  simp [lookup_fn, update_fn, beq_fnkey]

/-!  Lemmas about `Restricts`. -/

theorem restricts_refl (m : VarContext) : Restricts m m :=
  fun _ _ h => h

theorem restricts_trans {m2 m1 m : VarContext} (h1 : Restricts m2 m1)
    (h2 : Restricts m1 m) : Restricts m2 m :=
  fun x t h => h2 x t (h1 x t h)

theorem restricts_without (m : VarContext) (x : Ident) :
    Restricts (without_var m x) m := by
  intro y t h
  by_cases hy : y = x
  · rw [hy, lookup_var_without_self] at h
    exact absurd h (by simp)
  · rwa [lookup_var_without_ne m x y hy] at h

theorem restricts_none {ctx1 ctx : VarContext} (h : Restricts ctx1 ctx)
    (x : Ident) (hx : lookup_var ctx x = none) : lookup_var ctx1 x = none := by
  cases hc : lookup_var ctx1 x with
  | none => rfl
  | some t => rw [h x t hc] at hx; exact absurd hx (by simp)

theorem restricts_args_trans {r : TcResult VarContext} {m1 m : VarContext}
    (h1 : RestrictsArgsOut r m1) (h2 : Restricts m1 m) : RestrictsArgsOut r m := by
  cases r with
  | error e => trivial
  | ok c => exact restricts_trans h1 h2

/-- Joint restriction invariant for the expression checker and its two
loop helpers: expression checking only ever removes bindings from the
context it is given; it never adds or retypes one.  Proved by the
functional induction principle of the mutual definition. -/
theorem tc_restricts :
    (∀ (es : Spanned Expression) (fn_context : FnContext) (var_context : VarContext),
      RestrictsOut (typecheck_expression es fn_context var_context).snd var_context)
    ∧ (∀ (sig_args : List (Spanned Ident × Spanned Typ)) (args : List (Spanned Expression))
        (fn_context : FnContext) (var_context : VarContext),
      RestrictsArgsOut (typecheck_args sig_args args fn_context var_context).snd var_context)
    ∧ (∀ (args : List (Spanned Expression)) (fn_context : FnContext)
        (var_context : VarContext),
      Restricts (typecheck_tuple_args args fn_context var_context).snd.snd var_context) := by
  apply typecheck_expression.mutual_induct <;>
    (intros;
     simp_all only [typecheck_expression, typecheck_args, typecheck_tuple_args, check_vec,
       RestrictsOut, RestrictsArgsOut];
     try solve_by_elim [restricts_refl, restricts_trans, restricts_without,
       restricts_args_trans])

/-- The restriction invariant in equational form. -/
theorem typecheck_expression_restricts {es : Spanned Expression} {fn_context : FnContext}
    {var_context ctx1 : VarContext} {ds : List Diag} {t : Typ}
    (h : typecheck_expression es fn_context var_context = (ds, Except.ok (t, ctx1))) :
    Restricts ctx1 var_context := by
  have h1 := tc_restricts.1 es fn_context var_context
  rw [h] at h1
  exact h1

/-- The argument loop only ever examines the zip of the two lists: the
longer list beyond the shorter's length is ignored. -/
theorem typecheck_args_take :
    ∀ (sig_args : List (Spanned Ident × Spanned Typ)) (args : List (Spanned Expression))
      (fn_context : FnContext) (var_context : VarContext),
    typecheck_args sig_args args fn_context var_context =
      typecheck_args (sig_args.take args.length) (args.take sig_args.length)
        fn_context var_context := by
  intro sig_args
  induction sig_args with
  | nil =>
    intro args fn ctx
    cases args <;> simp [typecheck_args]
  | cons s ss ih =>
    intro args fn ctx
    cases args with
    | nil => simp [typecheck_args]
    | cons a rest =>
      obtain ⟨sf, st, ssp⟩ := s
      obtain ⟨ae, asp⟩ := a
      simp only [List.length_cons, List.take_succ_cons, typecheck_args]
      cases htc : typecheck_expression (ae, asp) fn ctx with
      | mk ds r =>
        cases r with
        | error e => rfl
        | ok v =>
          obtain ⟨arg_t, nctx⟩ := v
          cases arg_t.fst.fst <;> cases st.fst.fst <;>
            simp only [] <;> (try rfl) <;>
            (first
              | (split
                 · rfl
                 · rw [ih rest fn nctx])
              | rw [ih rest fn nctx])

/-- The tuple-pattern fold only ever examines the zip of the two
lists: the longer list beyond the shorter's length is ignored. -/
theorem typecheck_pattern_fold_take :
    ∀ (pat_args : List (Spanned Pattern)) (typ_args : List (Spanned BaseTyp))
      (acc : TcResult VarContext) (pat_span : Span),
    typecheck_pattern_fold acc pat_args typ_args pat_span =
      typecheck_pattern_fold acc (pat_args.take typ_args.length)
        (typ_args.take pat_args.length) pat_span := by
  intro pat_args
  induction pat_args with
  | nil =>
    intro typ_args acc sp
    cases typ_args <;> simp [typecheck_pattern_fold]
  | cons p ps ih =>
    intro typ_args acc sp
    cases typ_args with
    | nil => simp [typecheck_pattern_fold]
    | cons t ts =>
      simp only [List.length_cons, List.take_succ_cons, typecheck_pattern_fold]
      simp only [ih]

/-- If the final argument of an exactly-arity-matching argument list
is an identifier that is absent from the context, the argument loop
always fails: every path either aborts earlier or reaches the final
identifier, whose lookup fails (the restriction invariant keeps the
name absent along the loop). -/
theorem typecheck_args_kills :
    ∀ (args : List (Spanned Expression)) (sig_args : List (Spanned Ident × Spanned Typ))
      (fn_context : FnContext) (var_context : VarContext) (x : Ident) (xsp ssp : Span),
      sig_args.length = args.length →
      args.getLast? = some (Expression.Named (Path.mk [(x, xsp)] none), ssp) →
      lookup_var var_context x = none →
      (typecheck_args sig_args args fn_context var_context).snd = Except.error () := by
  intro args
  induction args with
  | nil => intro sig fn ctx x xsp ssp hlen hlast hx; simp at hlast
  | cons a rest ih =>
    intro sig fn ctx x xsp ssp hlen hlast hx
    cases sig with
    | nil => simp at hlen
    | cons s ss =>
      obtain ⟨sf, st, ssp2⟩ := s
      obtain ⟨ae, asp⟩ := a
      cases rest with
      | nil =>
        have ha : ae = Expression.Named (Path.mk [(x, xsp)] none) ∧ asp = ssp := by
          simpa [List.getLast?] using hlast
        obtain ⟨hae, hasp⟩ := ha
        subst hae
        simp [typecheck_args, typecheck_expression, hx]
      | cons b rest2 =>
        have hlast2 : (b :: rest2).getLast? =
            some (Expression.Named (Path.mk [(x, xsp)] none), ssp) := by
          simpa [List.getLast?_cons_cons] using hlast
        have hlen2 : ss.length = (b :: rest2).length := by
          simpa using hlen
        simp only [typecheck_args]
        cases htc : typecheck_expression (ae, asp) fn ctx with
        | mk ds r =>
          cases r with
          | error e => rfl
          | ok v =>
            obtain ⟨arg_t, nctx⟩ := v
            obtain ⟨⟨ab, absp⟩, abt, abtsp⟩ := arg_t
            obtain ⟨⟨stb, stbsp⟩, stt, sttsp⟩ := st
            have hx2 : lookup_var nctx x = none :=
              restricts_none (typecheck_expression_restricts htc) x hx
            cases ab <;> cases stb <;> simp only [] <;> (try rfl) <;>
              (cases hrec : typecheck_args ss (b :: rest2) fn nctx with
               | mk ds1 r1 =>
                 have hih := ih ss fn nctx x xsp ssp hlen2 hlast2 hx2
                 rw [hrec] at hih
                 simp at hih
                 cases hbeq : beq_base abt stt <;> simp [hbeq, hih])


/-- Claim C10: for every expression, if expression checking succeeds,
the returned variable context is a restriction of the input context:
every binding present in the output context was present in the input
context with the same type; expression checking only ever removes
bindings, never adds or retypes one. -/
theorem c10_expression_restricts_context
    (es : Spanned Expression) (fn_context : FnContext) (var_context : VarContext)
    (ds : List Diag) (t : Typ) (ctx1 : VarContext)
    (h : typecheck_expression es fn_context var_context = (ds, Except.ok (t, ctx1))) :
    ∀ (x : Ident) (tx : Typ), lookup_var ctx1 x = some tx →
      lookup_var var_context x = some tx :=
  typecheck_expression_restricts h

theorem c10_expression_restricts_context_witness :
    typecheck_expression (Expression.Named (Path.mk [("s", ⟨1⟩)] none), ⟨2⟩) []
        [("s", ((Borrowing.Consumed, ⟨3⟩), (BaseTyp.Seq (BaseTyp.UInt8, ⟨4⟩), ⟨5⟩))),
         ("y", ((Borrowing.Consumed, ⟨6⟩), (BaseTyp.Bool, ⟨7⟩)))] =
      ([], Except.ok ((((Borrowing.Consumed, ⟨3⟩), (BaseTyp.Seq (BaseTyp.UInt8, ⟨4⟩), ⟨5⟩))),
        [("y", ((Borrowing.Consumed, ⟨6⟩), (BaseTyp.Bool, ⟨7⟩)))]))
    ∧ lookup_var [("s", ((Borrowing.Consumed, ⟨3⟩), (BaseTyp.Seq (BaseTyp.UInt8, ⟨4⟩), ⟨5⟩))),
         ("y", ((Borrowing.Consumed, ⟨6⟩), (BaseTyp.Bool, ⟨7⟩)))] "y" =
        some ((Borrowing.Consumed, ⟨6⟩), (BaseTyp.Bool, ⟨7⟩)) := by
  constructor
  · simp [typecheck_expression, lookup_var, is_copy, without_var]
  · exact c10_expression_restricts_context
      (Expression.Named (Path.mk [("s", ⟨1⟩)] none), ⟨2⟩) []
      [("s", ((Borrowing.Consumed, ⟨3⟩), (BaseTyp.Seq (BaseTyp.UInt8, ⟨4⟩), ⟨5⟩))),
       ("y", ((Borrowing.Consumed, ⟨6⟩), (BaseTyp.Bool, ⟨7⟩)))]
      []
      ((Borrowing.Consumed, ⟨3⟩), (BaseTyp.Seq (BaseTyp.UInt8, ⟨4⟩), ⟨5⟩))
      [("y", ((Borrowing.Consumed, ⟨6⟩), (BaseTyp.Bool, ⟨7⟩)))]
      (by simp [typecheck_expression, lookup_var, is_copy, without_var])
      "y" ((Borrowing.Consumed, ⟨6⟩), (BaseTyp.Bool, ⟨7⟩)) (by simp [lookup_var])

/-- Claim C3: checking an identifier expression looks the name up in
the variable context and fails if unknown; if the binding is
Consumed-mode with a non-copy base type the returned context has the
name removed, so a second reference fails as an unknown identifier;
for a Consumed copy-typed or Borrowed binding the returned context
equals the input context. -/
theorem c3_identifier_checking (x : Ident) (xsp sp : Span) (fn_context : FnContext)
    (var_context : VarContext) :
    (lookup_var var_context x = none →
      typecheck_expression (Expression.Named (Path.mk [(x, xsp)] none), sp) fn_context
          var_context
        = ([Diag.unknownVar x sp], Except.error ()))
    ∧ (∀ t, lookup_var var_context x = some t → t.fst.fst = Borrowing.Consumed →
        is_copy t.snd.fst = false →
        typecheck_expression (Expression.Named (Path.mk [(x, xsp)] none), sp) fn_context
            var_context
          = ([], Except.ok (t, without_var var_context x))
        ∧ lookup_var (without_var var_context x) x = none
        ∧ typecheck_expression (Expression.Named (Path.mk [(x, xsp)] none), sp) fn_context
            (without_var var_context x)
          = ([Diag.unknownVar x sp], Except.error ()))
    ∧ (∀ t, lookup_var var_context x = some t → t.fst.fst = Borrowing.Consumed →
        is_copy t.snd.fst = true →
        typecheck_expression (Expression.Named (Path.mk [(x, xsp)] none), sp) fn_context
            var_context
          = ([], Except.ok (t, var_context)))
    ∧ (∀ t, lookup_var var_context x = some t → t.fst.fst = Borrowing.Borrowed →
        typecheck_expression (Expression.Named (Path.mk [(x, xsp)] none), sp) fn_context
            var_context
          = ([], Except.ok (t, var_context))) := by
  refine ⟨?_, ?_, ?_, ?_⟩
  · intro h
    simp [typecheck_expression, h]
  · intro t ht hmode hcopy
    refine ⟨?_, lookup_var_without_self var_context x, ?_⟩
    · simp [typecheck_expression, ht, hmode, hcopy]
    · simp [typecheck_expression, lookup_var_without_self var_context x]
  · intro t ht hmode hcopy
    simp [typecheck_expression, ht, hmode, hcopy]
  · intro t ht hmode
    simp [typecheck_expression, ht, hmode]

theorem c3_identifier_checking_witness :
    lookup_var [("v", ((Borrowing.Consumed, ⟨1⟩), (BaseTyp.Seq (BaseTyp.Bool, ⟨2⟩), ⟨3⟩)))]
        "v" = some ((Borrowing.Consumed, ⟨1⟩), (BaseTyp.Seq (BaseTyp.Bool, ⟨2⟩), ⟨3⟩))
    ∧ is_copy (BaseTyp.Seq (BaseTyp.Bool, ⟨2⟩)) = false
    ∧ (typecheck_expression (Expression.Named (Path.mk [("v", ⟨0⟩)] none), ⟨9⟩) []
          [("v", ((Borrowing.Consumed, ⟨1⟩), (BaseTyp.Seq (BaseTyp.Bool, ⟨2⟩), ⟨3⟩)))]
        = ([], Except.ok (((Borrowing.Consumed, ⟨1⟩), (BaseTyp.Seq (BaseTyp.Bool, ⟨2⟩), ⟨3⟩)),
            without_var [("v", ((Borrowing.Consumed, ⟨1⟩), (BaseTyp.Seq (BaseTyp.Bool, ⟨2⟩), ⟨3⟩)))] "v"))
        ∧ lookup_var (without_var
            [("v", ((Borrowing.Consumed, ⟨1⟩), (BaseTyp.Seq (BaseTyp.Bool, ⟨2⟩), ⟨3⟩)))] "v") "v" = none
        ∧ typecheck_expression (Expression.Named (Path.mk [("v", ⟨0⟩)] none), ⟨9⟩) []
            (without_var [("v", ((Borrowing.Consumed, ⟨1⟩), (BaseTyp.Seq (BaseTyp.Bool, ⟨2⟩), ⟨3⟩)))] "v")
          = ([Diag.unknownVar "v" ⟨9⟩], Except.error ())) := by
  refine ⟨by simp [lookup_var], by simp [is_copy], ?_⟩
  exact (c3_identifier_checking "v" ⟨0⟩ ⟨9⟩ []
      [("v", ((Borrowing.Consumed, ⟨1⟩), (BaseTyp.Seq (BaseTyp.Bool, ⟨2⟩), ⟨3⟩)))]).2.1
    ((Borrowing.Consumed, ⟨1⟩), (BaseTyp.Seq (BaseTyp.Bool, ⟨2⟩), ⟨3⟩))
    (by simp [lookup_var]) rfl (by simp [is_copy])

theorem zip_all_beq_symm :
    ∀ (l1 l2 : List (Ident × Span)),
      ((l1.zip l2).all fun q => q.fst == q.snd) = true →
      ((l2.zip l1).all fun q => q.fst == q.snd) = true := by
  intro l1
  induction l1 with
  | nil => intro l2 h; cases l2 <;> simp
  | cons a as ih =>
    intro l2 h
    cases l2 with
    | nil => simp
    | cons b bs =>
      simp only [List.zip_cons_cons, List.all_cons, Bool.and_eq_true] at h ⊢
      obtain ⟨h1, h2⟩ := h
      exact ⟨by simp only [beq_iff_eq] at h1 ⊢; exact h1.symm, ih bs h2⟩

theorem equal_types_symm_all :
    (∀ (t1 t2 : Typ), equal_types t1 t2 = true → equal_types t2 t1 = true)
    ∧ (∀ (s1 s2 : Span) (l1 l2 : List (Spanned BaseTyp)),
        equal_types_zip s1 s2 l1 l2 = true → equal_types_zip s2 s1 l2 l1 = true) := by
  apply equal_types.mutual_induct <;>
    (intros;
     (try simp_all only [equal_types, equal_types_zip, Bool.and_eq_true, beq_iff_eq,
       List.all_eq_true, Bool.false_eq_true]);
     try solve_by_elim [zip_all_beq_symm])
  case case16 =>
    rename_i bs1 s1 bs2 s2 loc1 arg1 loc2 arg2 ih h
    cases arg1 <;> cases arg2
    · simp only [equal_types, Bool.and_eq_true, beq_iff_eq, and_true] at h ⊢
      exact ⟨h.1.symm, zip_all_beq_symm _ _ h.2⟩
    · simp only [equal_types, Bool.and_eq_true, Bool.false_eq_true, and_false] at h
    · simp only [equal_types, Bool.and_eq_true, Bool.false_eq_true, and_false] at h
    · simp only [equal_types, Bool.and_eq_true, beq_iff_eq] at h ⊢
      exact ⟨⟨h.1.1.symm, zip_all_beq_symm _ _ h.1.2⟩, ih h.2⟩
  case case34 =>
    rename_i bs1 s1 bs2 s2 loc1 arg1 loc2 arg2 ih h
    cases arg1 <;> cases arg2
    · simp only [equal_types, Bool.and_eq_true, beq_iff_eq, and_true] at h ⊢
      exact ⟨h.1.symm, zip_all_beq_symm _ _ h.2⟩
    · simp only [equal_types, Bool.and_eq_true, Bool.false_eq_true, and_false] at h
    · simp only [equal_types, Bool.and_eq_true, Bool.false_eq_true, and_false] at h
    · simp only [equal_types, Bool.and_eq_true, beq_iff_eq] at h ⊢
      exact ⟨⟨h.1.1.symm, zip_all_beq_symm _ _ h.1.2⟩, ih h.2⟩
  case case39 =>
    rename_i s1 s2 l1 l2 hno
    cases l1 with
    | nil => cases l2 <;> simp [equal_types_zip]
    | cons a as =>
      cases l2 with
      | nil => simp [equal_types_zip]
      | cons b bs => exact (hno a as b bs rfl rfl).elim

theorem zip_all_beq_self :
    ∀ (l : List (Ident × Span)), ((l.zip l).all fun q => q.fst == q.snd) = true := by
  intro l
  induction l with
  | nil => simp
  | cons a as ih => simp [ih]

theorem sizeOf_basetyp_pos : ∀ (bt : BaseTyp), 1 ≤ sizeOf bt := by
  intro bt
  cases bt <;> simp <;> omega

theorem equal_types_refl_aux :
    ∀ (n : Nat) (bt : BaseTyp), sizeOf bt ≤ n →
      ∀ (b : Borrowing) (bs1 bs2 s1 s2 : Span),
        equal_types ((b, bs1), (bt, s1)) ((b, bs2), (bt, s2)) = true := by
  intro n
  induction n with
  | zero =>
    intro bt h
    exact absurd h (by have := sizeOf_basetyp_pos bt; omega)
  | succ n ihn =>
    intro bt hbt b bs1 bs2 s1 s2
    cases bt with
    | Seq tc =>
      obtain ⟨tcb, tcs⟩ := tc
      have hsize : sizeOf tcb ≤ n := by simp at hbt; omega
      cases b <;>
        (simp only [equal_types]
         exact ihn tcb hsize Borrowing.Consumed s1 s2 tcs tcs)
    | Named p =>
      cases p with
      | mk loc arg =>
        cases arg with
        | none =>
          cases b <;> (simp only [equal_types]; simp [zip_all_beq_self])
        | some tc =>
          have hsize : sizeOf tc ≤ n := by simp at hbt; omega
          cases b <;>
            (simp only [equal_types, Bool.and_eq_true]
             exact ⟨⟨by simp, zip_all_beq_self loc⟩,
               ihn tc hsize Borrowing.Consumed s1 s2 s1 s2⟩)
    | Tuple ts =>
      have hmem : ∀ e ∈ ts, sizeOf e.fst ≤ n := by
        intro e he
        have h1 := List.sizeOf_lt_of_mem he
        obtain ⟨ef, es⟩ := e
        simp at hbt h1 ⊢
        omega
      have hz : ∀ (l : List (Spanned BaseTyp)), (∀ e ∈ l, sizeOf e.fst ≤ n) →
          ∀ (z1 z2 : Span), equal_types_zip z1 z2 l l = true := by
        intro l
        induction l with
        | nil => intro _ z1 z2; simp [equal_types_zip]
        | cons e rest ihl =>
          intro hm z1 z2
          obtain ⟨ef, es⟩ := e
          simp only [equal_types_zip, Bool.and_eq_true]
          exact ⟨ihn ef (hm (ef, es) (by simp)) Borrowing.Consumed z1 z2 es es,
            ihl (fun q hq => hm q (by simp [hq])) z1 z2⟩
      cases b <;>
        (simp only [equal_types, Bool.and_eq_true]
         exact ⟨by simp, hz ts hmem s1 s2⟩)
    | Unit => cases b <;> simp [equal_types]
    | Bool => cases b <;> simp [equal_types]
    | UInt128 => cases b <;> simp [equal_types]
    | Int128 => cases b <;> simp [equal_types]
    | UInt64 => cases b <;> simp [equal_types]
    | Int64 => cases b <;> simp [equal_types]
    | UInt32 => cases b <;> simp [equal_types]
    | Int32 => cases b <;> simp [equal_types]
    | UInt16 => cases b <;> simp [equal_types]
    | Int16 => cases b <;> simp [equal_types]
    | UInt8 => cases b <;> simp [equal_types]
    | Int8 => cases b <;> simp [equal_types]
    | Usize => cases b <;> simp [equal_types]
    | Isize => cases b <;> simp [equal_types]

theorem equal_types_refl (t : Typ) : equal_types t t = true := by
  obtain ⟨⟨b, bs⟩, bt, s⟩ := t
  exact equal_types_refl_aux (sizeOf bt) bt le_rfl b bs bs s s

theorem equal_types_mode_mismatch (t1 t2 : Typ) (h : t1.fst.fst ≠ t2.fst.fst) :
    equal_types t1 t2 = false := by
  obtain ⟨⟨b1, bs1⟩, bt1, s1⟩ := t1
  obtain ⟨⟨b2, bs2⟩, bt2, s2⟩ := t2
  simp only [] at h
  cases b1 <;> cases b2 <;> simp_all [equal_types]

theorem equal_types_int_mismatch (b : Borrowing) (s1 s2 s3 s4 : Span) (bt1 bt2 : BaseTyp)
    (h1 : is_int_base bt1 = true) (h2 : is_int_base bt2 = true) (hne : bt1 ≠ bt2) :
    equal_types ((b, s1), (bt1, s2)) ((b, s3), (bt2, s4)) = false := by
  cases b <;> cases bt1 <;> cases bt2 <;>
    first
      | (solve | simp [is_int_base] at h1)
      | (solve | simp [is_int_base] at h2)
      | (exact absurd rfl hne)
      | (simp [equal_types])

/-- Claim C8: type equality is reflexive and symmetric over every type
in the grammar, is never true between two types whose borrowing modes
differ, and is never true between integer base types of different
width or signedness; it is a pure total Boolean predicate. -/
theorem c8_equal_types_properties :
    (∀ (t : Typ), equal_types t t = true)
    ∧ (∀ (t1 t2 : Typ), equal_types t1 t2 = true → equal_types t2 t1 = true)
    ∧ (∀ (t1 t2 : Typ), t1.fst.fst ≠ t2.fst.fst → equal_types t1 t2 = false)
    ∧ (∀ (b : Borrowing) (s1 s2 s3 s4 : Span) (bt1 bt2 : BaseTyp),
        is_int_base bt1 = true → is_int_base bt2 = true → bt1 ≠ bt2 →
        equal_types ((b, s1), (bt1, s2)) ((b, s3), (bt2, s4)) = false) :=
  ⟨equal_types_refl, equal_types_symm_all.1,
   equal_types_mode_mismatch, equal_types_int_mismatch⟩

theorem c8_equal_types_properties_witness :
    equal_types ((Borrowing.Consumed, ⟨0⟩), (BaseTyp.Seq (BaseTyp.UInt8, ⟨1⟩), ⟨2⟩))
        ((Borrowing.Consumed, ⟨0⟩), (BaseTyp.Seq (BaseTyp.UInt8, ⟨1⟩), ⟨2⟩)) = true
    ∧ equal_types ((Borrowing.Consumed, ⟨3⟩), (BaseTyp.Seq (BaseTyp.UInt8, ⟨4⟩), ⟨5⟩))
        ((Borrowing.Consumed, ⟨6⟩), (BaseTyp.Seq (BaseTyp.UInt8, ⟨7⟩), ⟨8⟩)) = true
    ∧ equal_types ((Borrowing.Consumed, ⟨0⟩), (BaseTyp.Bool, ⟨1⟩))
        ((Borrowing.Borrowed, ⟨2⟩), (BaseTyp.Bool, ⟨3⟩)) = false
    ∧ equal_types ((Borrowing.Consumed, ⟨0⟩), (BaseTyp.UInt8, ⟨1⟩))
        ((Borrowing.Consumed, ⟨2⟩), (BaseTyp.Int8, ⟨3⟩)) = false := by
  refine ⟨c8_equal_types_properties.1 _, ?_, ?_, ?_⟩
  · exact c8_equal_types_properties.2.1
      ((Borrowing.Consumed, ⟨6⟩), (BaseTyp.Seq (BaseTyp.UInt8, ⟨7⟩), ⟨8⟩))
      ((Borrowing.Consumed, ⟨3⟩), (BaseTyp.Seq (BaseTyp.UInt8, ⟨4⟩), ⟨5⟩))
      (by simp [equal_types])
  · exact c8_equal_types_properties.2.2.1
      ((Borrowing.Consumed, ⟨0⟩), (BaseTyp.Bool, ⟨1⟩))
      ((Borrowing.Borrowed, ⟨2⟩), (BaseTyp.Bool, ⟨3⟩))
      (by simp)
  · exact c8_equal_types_properties.2.2.2 Borrowing.Consumed ⟨0⟩ ⟨1⟩ ⟨2⟩ ⟨3⟩
      BaseTyp.UInt8 BaseTyp.Int8 (by simp [is_int_base]) (by simp [is_int_base]) (by simp)


set_option maxHeartbeats 2000000 in
/-- Claim C4: a successful free-function or method call yields
`Consumed` mode paired with the signature's declared return base type
as the expression's type; in particular, when `f`'s signature declares
return base type `Int32`, `let x = f(y);` binds `x` to
`(Consumed, Int32)`. -/
theorem c4_call_returns_declared_type :
    (∀ (f : Path) (fsp sp : Span) (args : List (Spanned Expression)) (fn_context : FnContext)
        (var_context ctx1 : VarContext) (ds : List Diag) (t : Typ),
      typecheck_expression (Expression.FuncCall (f, fsp) args, sp) fn_context var_context
          = (ds, Except.ok (t, ctx1)) →
      ∃ id idsp sig, f = Path.mk [(id, idsp)] none
        ∧ lookup_fn fn_context (FnKey.Static id) = some sig
        ∧ t = ((Borrowing.Consumed, fsp), sig.ret))
    ∧ (∀ (sel : Spanned Expression) (topt : Option Typ) (m : Ident) (msp sp : Span)
        (args : List (Spanned Expression)) (fn_context : FnContext)
        (var_context ctx1 : VarContext) (ds : List Diag) (t : Typ),
      typecheck_expression (Expression.MethodCall sel topt (m, msp) args, sp) fn_context
          var_context = (ds, Except.ok (t, ctx1)) →
      ∃ ds0 sel_typ vc1 sig,
        typecheck_expression sel fn_context var_context = (ds0, Except.ok (sel_typ, vc1))
        ∧ lookup_fn fn_context (FnKey.Method sel_typ.snd.fst m) = some sig
        ∧ t = ((Borrowing.Consumed, msp), sig.ret))
    ∧ (typecheck_statement
        (Statement.LetBinding (Pattern.IdentPat "x", ⟨3⟩) none
          (Expression.FuncCall (Path.mk [("f", ⟨4⟩)] none, ⟨5⟩)
            [(Expression.Named (Path.mk [("y", ⟨6⟩)] none), ⟨7⟩)], ⟨8⟩), ⟨9⟩)
        [(FnKey.Static "f", FuncSig.mk
          [(("y", ⟨0⟩), (((Borrowing.Consumed, ⟨0⟩), (BaseTyp.Int32, ⟨0⟩)), ⟨0⟩))]
          (BaseTyp.Int32, ⟨1⟩))]
        [("y", ((Borrowing.Consumed, ⟨2⟩), (BaseTyp.Int32, ⟨2⟩)))]
      = ([], Except.ok (((Borrowing.Consumed, ⟨9⟩), (BaseTyp.Unit, ⟨9⟩)),
          [("y", ((Borrowing.Consumed, ⟨2⟩), (BaseTyp.Int32, ⟨2⟩))),
           ("x", ((Borrowing.Consumed, ⟨5⟩), (BaseTyp.Int32, ⟨1⟩)))], []))
      ∧ lookup_var
          [("y", ((Borrowing.Consumed, ⟨2⟩), (BaseTyp.Int32, ⟨2⟩))),
           ("x", ((Borrowing.Consumed, ⟨5⟩), (BaseTyp.Int32, ⟨1⟩)))] "x"
        = some ((Borrowing.Consumed, ⟨5⟩), (BaseTyp.Int32, ⟨1⟩))) := by
  refine ⟨?_, ?_, ?_, ?_⟩
  · intro f fsp sp args fn ctx ctx1 ds t h
    cases f with
    | mk loc farg =>
      cases farg with
      | some a => simp [typecheck_expression] at h
      | none =>
        cases loc with
        | nil => simp [typecheck_expression] at h
        | cons p rest =>
          cases rest with
          | cons q rest2 => simp [typecheck_expression] at h
          | nil =>
            obtain ⟨id, idsp⟩ := p
            simp only [typecheck_expression] at h
            cases hlk : lookup_fn fn (FnKey.Static id) with
            | none => simp [hlk] at h
            | some sig =>
              simp only [hlk] at h
              cases hargs : typecheck_args sig.args args fn ctx with
              | mk dsa r =>
                simp only [hargs] at h
                cases r with
                | error e => simp at h
                | ok c =>
                  simp only [Prod.mk.injEq, Except.ok.injEq] at h
                  exact ⟨id, idsp, sig, rfl, hlk, h.2.1.symm⟩
  · intro sel topt m msp sp args fn ctx ctx1 ds t h
    simp only [typecheck_expression] at h
    cases hsel : typecheck_expression sel fn ctx with
    | mk ds0 r0 =>
      simp only [hsel] at h
      cases r0 with
      | error e => simp at h
      | ok v =>
        obtain ⟨sel_typ, vc1⟩ := v
        cases hlk : lookup_fn fn (FnKey.Method sel_typ.snd.fst m) with
        | none => simp [hlk] at h
        | some sig =>
          simp only [hlk] at h
          cases hargs : typecheck_args sig.args (args ++ [sel]) fn vc1 with
          | mk dsa r =>
            simp only [hargs] at h
            cases r with
            | error e => simp at h
            | ok c =>
              simp only [Prod.mk.injEq, Except.ok.injEq] at h
              exact ⟨ds0, sel_typ, vc1, sig, rfl, hlk, h.2.1.symm⟩
  · simp [typecheck_statement, typecheck_expression, typecheck_args, typecheck_pattern,
      lookup_fn, lookup_var, beq_fnkey, beq_base, is_copy, union_var, unit_var, check_vec]
  · simp [lookup_var]

set_option maxHeartbeats 2000000 in
theorem c4_call_returns_declared_type_witness :
    ∃ id idsp sig, (Path.mk [("f", ⟨4⟩)] none : Path) = Path.mk [(id, idsp)] none
      ∧ lookup_fn [(FnKey.Static "f", FuncSig.mk
          [(("y", ⟨0⟩), (((Borrowing.Consumed, ⟨0⟩), (BaseTyp.Int32, ⟨0⟩)), ⟨0⟩))]
          (BaseTyp.Int32, ⟨1⟩))] (FnKey.Static id) = some sig
      ∧ (((Borrowing.Consumed, ⟨5⟩), (BaseTyp.Int32, ⟨1⟩)) : Typ)
          = ((Borrowing.Consumed, ⟨5⟩), sig.ret) :=
  c4_call_returns_declared_type.1 (Path.mk [("f", ⟨4⟩)] none) ⟨5⟩ ⟨8⟩
    [(Expression.Named (Path.mk [("y", ⟨6⟩)] none), ⟨7⟩)]
    [(FnKey.Static "f", FuncSig.mk
      [(("y", ⟨0⟩), (((Borrowing.Consumed, ⟨0⟩), (BaseTyp.Int32, ⟨0⟩)), ⟨0⟩))]
      (BaseTyp.Int32, ⟨1⟩))]
    [("y", ((Borrowing.Consumed, ⟨2⟩), (BaseTyp.Int32, ⟨2⟩)))]
    [("y", ((Borrowing.Consumed, ⟨2⟩), (BaseTyp.Int32, ⟨2⟩)))]
    [] ((Borrowing.Consumed, ⟨5⟩), (BaseTyp.Int32, ⟨1⟩))
    (by simp [typecheck_expression, typecheck_args, lookup_fn, lookup_var, beq_fnkey,
      beq_base, is_copy])

/-- Claim C6: for a sequence-index expression `a[i]`, the indexed
expression is checked first (its borrow mode is irrelevant: the
characterization below holds for an arbitrary mode `b1` and the
outcome never inspects it), then the index against the resulting
context; checking fails if `a`'s base type is not a sequence, fails if
`i`'s mode is `Borrowed`, fails if `i`'s base type is not one of the
integer types, and otherwise succeeds with the element type at
`Consumed` mode and the context left by the index. -/
theorem c6_sequence_index (e1 e2 : Spanned Expression) (sp : Span)
    (fn_context : FnContext) (var_context c1 c2 : VarContext) (ds1 ds2 : List Diag)
    (b1 : Borrowing) (bs1 : Span) (bt1 : BaseTyp) (s1 : Span) (t2 : Typ)
    (h1 : typecheck_expression e1 fn_context var_context
      = (ds1, Except.ok (((b1, bs1), (bt1, s1)), c1)))
    (h2 : typecheck_expression e2 fn_context c1 = (ds2, Except.ok (t2, c2))) :
    (∀ cell csp, bt1 = BaseTyp.Seq (cell, csp) →
      (t2.fst.fst = Borrowing.Borrowed →
        typecheck_expression (Expression.ArrayIndex e1 e2, sp) fn_context var_context
          = (ds1 ++ ds2 ++ [Diag.borrowedIndex e2.snd], Except.error ()))
      ∧ (t2.fst.fst = Borrowing.Consumed → is_int_base t2.snd.fst = true →
        typecheck_expression (Expression.ArrayIndex e1 e2, sp) fn_context var_context
          = (ds1 ++ ds2, Except.ok (((Borrowing.Consumed, bs1), (cell, csp)), c2)))
      ∧ (t2.fst.fst = Borrowing.Consumed → is_int_base t2.snd.fst = false →
        typecheck_expression (Expression.ArrayIndex e1 e2, sp) fn_context var_context
          = (ds1 ++ ds2 ++ [Diag.nonIntegerIndex t2 e2.snd], Except.error ())))
    ∧ ((∀ cell, bt1 ≠ BaseTyp.Seq cell) →
      typecheck_expression (Expression.ArrayIndex e1 e2, sp) fn_context var_context
        = (ds1 ++ ds2 ++ [Diag.nonSeqIndexed ((b1, bs1), (bt1, s1)) e1.snd],
          Except.error ())) := by
  constructor
  · intro cell csp hseq
    subst hseq
    obtain ⟨⟨tb2, tbs2⟩, tbt2, ts2⟩ := t2
    refine ⟨?_, ?_, ?_⟩
    · intro hmode
      simp only [] at hmode
      subst hmode
      simp [typecheck_expression, h1, h2]
    · intro hmode hint
      simp only [] at hmode
      subst hmode
      simp only [typecheck_expression, h1, h2]
      cases tbt2 <;> simp_all [is_int_base]
    · intro hmode hint
      simp only [] at hmode
      subst hmode
      simp only [typecheck_expression, h1, h2]
      cases tbt2 <;> simp_all [is_int_base]
  · intro hne
    cases bt1 <;> first
      | (exact absurd rfl (hne _))
      | (simp [typecheck_expression, h1, h2])

theorem c6_sequence_index_witness :
    typecheck_expression (Expression.ArrayIndex
        (Expression.Named (Path.mk [("s", ⟨5⟩)] none), ⟨6⟩)
        (Expression.Named (Path.mk [("i", ⟨7⟩)] none), ⟨8⟩), ⟨9⟩) []
      [("s", ((Borrowing.Borrowed, ⟨0⟩), (BaseTyp.Seq (BaseTyp.UInt8, ⟨1⟩), ⟨2⟩))),
       ("i", ((Borrowing.Consumed, ⟨3⟩), (BaseTyp.Usize, ⟨4⟩)))]
      = ([], Except.ok (((Borrowing.Consumed, ⟨0⟩), (BaseTyp.UInt8, ⟨1⟩)),
          [("s", ((Borrowing.Borrowed, ⟨0⟩), (BaseTyp.Seq (BaseTyp.UInt8, ⟨1⟩), ⟨2⟩))),
           ("i", ((Borrowing.Consumed, ⟨3⟩), (BaseTyp.Usize, ⟨4⟩)))])) :=
  ((c6_sequence_index
      (Expression.Named (Path.mk [("s", ⟨5⟩)] none), ⟨6⟩)
      (Expression.Named (Path.mk [("i", ⟨7⟩)] none), ⟨8⟩) ⟨9⟩ []
      [("s", ((Borrowing.Borrowed, ⟨0⟩), (BaseTyp.Seq (BaseTyp.UInt8, ⟨1⟩), ⟨2⟩))),
       ("i", ((Borrowing.Consumed, ⟨3⟩), (BaseTyp.Usize, ⟨4⟩)))]
      [("s", ((Borrowing.Borrowed, ⟨0⟩), (BaseTyp.Seq (BaseTyp.UInt8, ⟨1⟩), ⟨2⟩))),
       ("i", ((Borrowing.Consumed, ⟨3⟩), (BaseTyp.Usize, ⟨4⟩)))]
      [("s", ((Borrowing.Borrowed, ⟨0⟩), (BaseTyp.Seq (BaseTyp.UInt8, ⟨1⟩), ⟨2⟩))),
       ("i", ((Borrowing.Consumed, ⟨3⟩), (BaseTyp.Usize, ⟨4⟩)))]
      [] [] Borrowing.Borrowed ⟨0⟩ (BaseTyp.Seq (BaseTyp.UInt8, ⟨1⟩)) ⟨2⟩
      ((Borrowing.Consumed, ⟨3⟩), (BaseTyp.Usize, ⟨4⟩))
      (by simp [typecheck_expression, lookup_var])
      (by simp [typecheck_expression, lookup_var, is_copy])).1
    BaseTyp.UInt8 ⟨1⟩ rfl).2.1 rfl (by simp [is_int_base])

set_option maxHeartbeats 2000000 in
/-- Claim C5: at call sites and at tuple-pattern sites, an arity
mismatch between supplied arguments (or sub-patterns) and the declared
parameter (or tuple-component) count is reported as a diagnostic but
does not abort: checking continues pairwise over the zip of the
shorter list; `let (a,) = (1 as UInt8, true);` reports the mismatch
yet still binds `a` from the first tuple component. -/
theorem c5_arity_mismatch_nonfatal :
    (∀ (sig_args : List (Spanned Ident × Spanned Typ)) (args : List (Spanned Expression))
        (fn_context : FnContext) (var_context : VarContext),
      typecheck_args sig_args args fn_context var_context =
        typecheck_args (sig_args.take args.length) (args.take sig_args.length)
          fn_context var_context)
    ∧ (∀ (id : Ident) (idsp fsp sp : Span) (args : List (Spanned Expression))
        (fn_context : FnContext) (var_context : VarContext) (sig : FuncSig),
      lookup_fn fn_context (FnKey.Static id) = some sig →
      sig.args.length ≠ args.length →
      typecheck_expression (Expression.FuncCall (Path.mk [(id, idsp)] none, fsp) args, sp)
          fn_context var_context
        = (Diag.callArityMismatch (Path.mk [(id, idsp)] none) sig.args.length args.length sp
            :: (typecheck_args sig.args args fn_context var_context).fst,
          match (typecheck_args sig.args args fn_context var_context).snd with
          | Except.error _ => Except.error ()
          | Except.ok c => Except.ok (((Borrowing.Consumed, fsp), sig.ret), c)))
    ∧ (∀ (pat_args : List (Spanned Pattern)) (typ_args : List (Spanned BaseTyp))
        (acc : TcResult VarContext) (pat_span : Span),
      typecheck_pattern_fold acc pat_args typ_args pat_span =
        typecheck_pattern_fold acc (pat_args.take typ_args.length)
          (typ_args.take pat_args.length) pat_span)
    ∧ (∀ (pat_args : List (Spanned Pattern)) (typ_args : List (Spanned BaseTyp))
        (b : Borrowing) (bsp tsp psp : Span),
      pat_args.length ≠ typ_args.length →
      typecheck_pattern (Pattern.Tuple pat_args, psp)
          ((b, bsp), (BaseTyp.Tuple typ_args, tsp))
        = (Diag.patternArityMismatch pat_args.length typ_args.length psp
            :: (typecheck_pattern_fold (Except.ok []) pat_args typ_args psp).fst,
          (typecheck_pattern_fold (Except.ok []) pat_args typ_args psp).snd))
    ∧ (typecheck_statement
        (Statement.LetBinding (Pattern.Tuple [(Pattern.IdentPat "a", ⟨1⟩)], ⟨2⟩) none
          (Expression.Tuple [(Expression.Lit (Literal.UInt8 1), ⟨3⟩),
            (Expression.Lit (Literal.Bool true), ⟨4⟩)], ⟨5⟩), ⟨6⟩) [] []
      = ([Diag.patternArityMismatch 1 2 ⟨2⟩],
          Except.ok (((Borrowing.Consumed, ⟨6⟩), (BaseTyp.Unit, ⟨6⟩)),
            [("a", ((Borrowing.Consumed, ⟨2⟩), (BaseTyp.UInt8, ⟨3⟩)))], []))
      ∧ lookup_var [("a", ((Borrowing.Consumed, ⟨2⟩), (BaseTyp.UInt8, ⟨3⟩)))] "a"
        = some ((Borrowing.Consumed, ⟨2⟩), (BaseTyp.UInt8, ⟨3⟩))) := by
  refine ⟨typecheck_args_take, ?_, typecheck_pattern_fold_take, ?_, ?_, ?_⟩
  · intro id idsp fsp sp args fn ctx sig hlk hne
    simp only [typecheck_expression, hlk, if_pos hne]
    cases hargs : typecheck_args sig.args args fn ctx with
    | mk dsa r => cases r <;> simp [hargs]
  · intro pat_args typ_args b bsp tsp psp hne
    rw [typecheck_pattern.eq_1 psp (b, bsp) (BaseTyp.Tuple typ_args, tsp) pat_args
      typ_args rfl]
    cases hfold : typecheck_pattern_fold (Except.ok []) pat_args typ_args psp with
    | mk dsf r => rw [if_pos hne]; rfl
  · simp [typecheck_statement, typecheck_expression, typecheck_tuple_args, check_vec,
      typecheck_pattern, typecheck_pattern_fold, union_var, unit_var, Except.isOk,
      Except.toOption, Except.toBool]
  · simp [lookup_var]

theorem c5_arity_mismatch_nonfatal_witness :
    typecheck_expression (Expression.FuncCall (Path.mk [("g", ⟨0⟩)] none, ⟨1⟩) [], ⟨2⟩)
        [(FnKey.Static "g", FuncSig.mk
          [(("y", ⟨3⟩), (((Borrowing.Consumed, ⟨3⟩), (BaseTyp.Bool, ⟨3⟩)), ⟨3⟩))]
          (BaseTyp.Unit, ⟨4⟩))] []
      = (Diag.callArityMismatch (Path.mk [("g", ⟨0⟩)] none) 1 0 ⟨2⟩
          :: (typecheck_args
            [(("y", ⟨3⟩), (((Borrowing.Consumed, ⟨3⟩), (BaseTyp.Bool, ⟨3⟩)), ⟨3⟩))] []
            [(FnKey.Static "g", FuncSig.mk
              [(("y", ⟨3⟩), (((Borrowing.Consumed, ⟨3⟩), (BaseTyp.Bool, ⟨3⟩)), ⟨3⟩))]
              (BaseTyp.Unit, ⟨4⟩))] []).fst,
        match (typecheck_args
            [(("y", ⟨3⟩), (((Borrowing.Consumed, ⟨3⟩), (BaseTyp.Bool, ⟨3⟩)), ⟨3⟩))] []
            [(FnKey.Static "g", FuncSig.mk
              [(("y", ⟨3⟩), (((Borrowing.Consumed, ⟨3⟩), (BaseTyp.Bool, ⟨3⟩)), ⟨3⟩))]
              (BaseTyp.Unit, ⟨4⟩))] []).snd with
        | Except.error _ => Except.error ()
        | Except.ok c => Except.ok (((Borrowing.Consumed, ⟨1⟩),
            (BaseTyp.Unit, ⟨4⟩)), c)) :=
  c5_arity_mismatch_nonfatal.2.1 "g" ⟨0⟩ ⟨1⟩ ⟨2⟩ []
    [(FnKey.Static "g", FuncSig.mk
      [(("y", ⟨3⟩), (((Borrowing.Consumed, ⟨3⟩), (BaseTyp.Bool, ⟨3⟩)), ⟨3⟩))]
      (BaseTyp.Unit, ⟨4⟩))] []
    (FuncSig.mk [(("y", ⟨3⟩), (((Borrowing.Consumed, ⟨3⟩), (BaseTyp.Bool, ⟨3⟩)), ⟨3⟩))]
      (BaseTyp.Unit, ⟨4⟩))
    (by simp [lookup_fn, beq_fnkey]) (by simp)

set_option maxHeartbeats 2000000 in
/-- Claim C7: a function body is checked against the signature table
as it existed before that function was added, so a call inside the
body to a function absent from that table — in particular the function
itself, or any later-declared function — fails as an unknown function;
only on successful checking of the body is the signature registered
under a `Static` key by name, silently overwriting any same-named
prior entry (the updated table answers the new signature for that
key regardless of what was bound before). -/
theorem c7_forward_references :
    (∀ (id : Ident) (idsp fsp sp : Span) (args : List (Spanned Expression))
        (fn_context : FnContext) (var_context : VarContext),
      lookup_fn fn_context (FnKey.Static id) = none →
      typecheck_expression (Expression.FuncCall (Path.mk [(id, idsp)] none, fsp) args, sp)
          fn_context var_context
        = ([Diag.unknownFunction (Path.mk [(id, idsp)] none) fsp], Except.error ()))
    ∧ (∀ (f : Ident) (fsp : Span) (sig : FuncSig) (b : Block) (bsp : Span)
        (fn_context : FnContext) (ds : List Diag) (out : Item × FnContext),
      typecheck_item (Item.FnDecl (f, fsp) sig (b, bsp)) fn_context = (ds, Except.ok out) →
      out.snd = update_fn fn_context (FnKey.Static f) sig
      ∧ lookup_fn (update_fn fn_context (FnKey.Static f) sig) (FnKey.Static f) = some sig)
    ∧ (typecheck_program
        [(Item.FnDecl ("f", ⟨0⟩) (FuncSig.mk [] (BaseTyp.Unit, ⟨1⟩))
          (Block.mk [(Statement.LetBinding (Pattern.WildCard, ⟨2⟩) none
            (Expression.FuncCall (Path.mk [("f", ⟨3⟩)] none, ⟨4⟩) [], ⟨5⟩), ⟨6⟩)]
            none none, ⟨7⟩), ⟨8⟩)]
      = ([Diag.unknownFunction (Path.mk [("f", ⟨3⟩)] none) ⟨4⟩], Except.error ())) := by
  refine ⟨?_, ?_, ?_⟩
  · intro id idsp fsp sp args fn ctx h
    simp [typecheck_expression, h]
  · intro f fsp sig b bsp fn ds out h
    simp only [typecheck_item] at h
    cases hb : typecheck_block b fn
        (sig.args.foldl
          (fun var_context q =>
            match q with
            | ((x, _), (t, _)) => update_var var_context x t) ([] : VarContext)) with
    | mk dsb rb =>
      simp only [hb] at h
      cases rb with
      | error e => simp at h
      | ok b1 =>
        simp only [Prod.mk.injEq, Except.ok.injEq] at h
        refine ⟨?_, lookup_fn_update_static fn f sig⟩
        rw [← h.2]
  · simp [typecheck_program, typecheck_program_items, typecheck_item, typecheck_block,
      typecheck_block_stmts, typecheck_statement, typecheck_expression, lookup_fn,
      check_vec, Except.isOk, Except.toBool]

theorem c7_forward_references_witness :
    typecheck_expression (Expression.FuncCall (Path.mk [("h", ⟨0⟩)] none, ⟨1⟩) [], ⟨2⟩)
        [(FnKey.Static "g", FuncSig.mk [] (BaseTyp.Unit, ⟨3⟩))] []
      = ([Diag.unknownFunction (Path.mk [("h", ⟨0⟩)] none) ⟨1⟩], Except.error ()) :=
  c7_forward_references.1 "h" ⟨0⟩ ⟨1⟩ ⟨2⟩ []
    [(FnKey.Static "g", FuncSig.mk [] (BaseTyp.Unit, ⟨3⟩))] []
    (by simp [lookup_fn, beq_fnkey])

set_option maxHeartbeats 2000000 in
/-- Counterexample to claim C1: the binding union after a let
statement is left-biased towards the post-expression context, so a
same-named prior binding that survives the right-hand side is kept and
the new pattern binding does not shadow it; likewise, within a tuple
pattern binding the same identifier twice, the earlier (leftmost)
binding wins, not the later one. -/
theorem c1_counterexample :
    (typecheck_statement
        (Statement.LetBinding (Pattern.IdentPat "x", ⟨1⟩) none
          (Expression.Lit (Literal.UInt8 0), ⟨2⟩), ⟨0⟩) []
        [("x", ((Borrowing.Consumed, ⟨9⟩), (BaseTyp.Bool, ⟨9⟩)))]
      = ([], Except.ok (((Borrowing.Consumed, ⟨0⟩), (BaseTyp.Unit, ⟨0⟩)),
          [("x", ((Borrowing.Consumed, ⟨9⟩), (BaseTyp.Bool, ⟨9⟩))),
           ("x", ((Borrowing.Consumed, ⟨2⟩), (BaseTyp.UInt8, ⟨2⟩)))], []))
      ∧ lookup_var [("x", ((Borrowing.Consumed, ⟨9⟩), (BaseTyp.Bool, ⟨9⟩))),
           ("x", ((Borrowing.Consumed, ⟨2⟩), (BaseTyp.UInt8, ⟨2⟩)))] "x"
        = some ((Borrowing.Consumed, ⟨9⟩), (BaseTyp.Bool, ⟨9⟩))
      ∧ (((Borrowing.Consumed, ⟨9⟩), (BaseTyp.Bool, ⟨9⟩)) : Typ)
          ≠ ((Borrowing.Consumed, ⟨2⟩), (BaseTyp.UInt8, ⟨2⟩)))
    ∧ (typecheck_pattern
        (Pattern.Tuple [(Pattern.IdentPat "x", ⟨3⟩), (Pattern.IdentPat "x", ⟨4⟩)], ⟨5⟩)
        ((Borrowing.Consumed, ⟨6⟩),
          (BaseTyp.Tuple [(BaseTyp.UInt8, ⟨7⟩), (BaseTyp.Bool, ⟨8⟩)], ⟨6⟩))
      = ([], Except.ok [("x", ((Borrowing.Consumed, ⟨5⟩), (BaseTyp.UInt8, ⟨7⟩))),
          ("x", ((Borrowing.Consumed, ⟨5⟩), (BaseTyp.Bool, ⟨8⟩)))])
      ∧ lookup_var [("x", ((Borrowing.Consumed, ⟨5⟩), (BaseTyp.UInt8, ⟨7⟩))),
          ("x", ((Borrowing.Consumed, ⟨5⟩), (BaseTyp.Bool, ⟨8⟩)))] "x"
        = some ((Borrowing.Consumed, ⟨5⟩), (BaseTyp.UInt8, ⟨7⟩))
      ∧ (((Borrowing.Consumed, ⟨5⟩), (BaseTyp.UInt8, ⟨7⟩)) : Typ)
          ≠ ((Borrowing.Consumed, ⟨5⟩), (BaseTyp.Bool, ⟨8⟩))) := by
  refine ⟨⟨?_, by simp [lookup_var], by simp⟩, ⟨?_, by simp [lookup_var], by simp⟩⟩
  · simp [typecheck_statement, typecheck_expression, typecheck_pattern, union_var,
      unit_var]
  · simp [typecheck_pattern, typecheck_pattern_fold, union_var, unit_var]

set_option maxHeartbeats 2000000 in
/-- Claim C1, amended: after a successful let statement, a name
resolves to its binding in the post-expression context if still
present there, and only otherwise to the new pattern binding (the
union of `im` is left-biased, keeping the receiver's values); within a
single tuple pattern that binds the same identifier more than once,
the earlier (leftmost) binding wins. -/
theorem c1_amended :
    (∀ (pat : Pattern) (patsp ssp : Span) (typ : Option (Spanned Typ))
        (expr : Spanned Expression) (fn_context : FnContext)
        (var_context ctxE patCtx ctxOut : VarContext) (ds dsE dsP : List Diag)
        (t eT : Typ) (vs : VarSet),
      typecheck_expression expr fn_context var_context = (dsE, Except.ok (eT, ctxE)) →
      typecheck_pattern (pat, patsp) eT = (dsP, Except.ok patCtx) →
      typecheck_statement (Statement.LetBinding (pat, patsp) typ expr, ssp) fn_context
          var_context = (ds, Except.ok (t, ctxOut, vs)) →
      ∀ (y : Ident), lookup_var ctxOut y = ((lookup_var ctxE y).or (lookup_var patCtx y)))
    ∧ (∀ (x : Ident) (sp1 sp2 psp bsp tsp ts1 ts2 : Span) (b : Borrowing)
        (bt1 bt2 : BaseTyp),
      typecheck_pattern
          (Pattern.Tuple [(Pattern.IdentPat x, sp1), (Pattern.IdentPat x, sp2)], psp)
          ((b, bsp), (BaseTyp.Tuple [(bt1, ts1), (bt2, ts2)], tsp))
        = ([], Except.ok [(x, ((Borrowing.Consumed, psp), (bt1, ts1))),
            (x, ((Borrowing.Consumed, psp), (bt2, ts2)))])
      ∧ lookup_var [(x, ((Borrowing.Consumed, psp), (bt1, ts1))),
          (x, ((Borrowing.Consumed, psp), (bt2, ts2)))] x
        = some ((Borrowing.Consumed, psp), (bt1, ts1))) := by
  constructor
  · intro pat patsp ssp typ expr fn ctx ctxE patCtx ctxOut ds dsE dsP t eT vs
      hexpr hpat hstmt y
    simp only [typecheck_statement, hexpr] at hstmt
    cases typ with
    | none =>
      simp only [hpat] at hstmt
      simp only [Prod.mk.injEq, Except.ok.injEq] at hstmt
      rw [← hstmt.2.2.1]
      exact lookup_var_union ctxE patCtx y
    | some tp =>
      obtain ⟨td, tdsp⟩ := tp
      cases heq : equal_types td eT with
      | false => simp [heq] at hstmt
      | true =>
        simp only [heq, Bool.not_true, Bool.false_eq_true, if_false, hpat] at hstmt
        simp only [Prod.mk.injEq, Except.ok.injEq] at hstmt
        rw [← hstmt.2.2.1]
        exact lookup_var_union ctxE patCtx y
  · intro x sp1 sp2 psp bsp tsp ts1 ts2 b bt1 bt2
    constructor
    · simp [typecheck_pattern, typecheck_pattern_fold, union_var, unit_var]
    · simp [lookup_var]

set_option maxHeartbeats 2000000 in
theorem c1_amended_witness :
    lookup_var [("x", ((Borrowing.Consumed, ⟨9⟩), (BaseTyp.Bool, ⟨9⟩))),
        ("x", ((Borrowing.Consumed, ⟨2⟩), (BaseTyp.UInt8, ⟨2⟩)))] "x"
      = ((lookup_var [("x", ((Borrowing.Consumed, ⟨9⟩), (BaseTyp.Bool, ⟨9⟩)))] "x").or
          (lookup_var [("x", ((Borrowing.Consumed, ⟨2⟩), (BaseTyp.UInt8, ⟨2⟩)))] "x")) :=
  c1_amended.1 (Pattern.IdentPat "x") ⟨1⟩ ⟨0⟩ none
    (Expression.Lit (Literal.UInt8 0), ⟨2⟩) []
    [("x", ((Borrowing.Consumed, ⟨9⟩), (BaseTyp.Bool, ⟨9⟩)))]
    [("x", ((Borrowing.Consumed, ⟨9⟩), (BaseTyp.Bool, ⟨9⟩)))]
    [("x", ((Borrowing.Consumed, ⟨2⟩), (BaseTyp.UInt8, ⟨2⟩)))]
    [("x", ((Borrowing.Consumed, ⟨9⟩), (BaseTyp.Bool, ⟨9⟩))),
     ("x", ((Borrowing.Consumed, ⟨2⟩), (BaseTyp.UInt8, ⟨2⟩)))]
    [] [] []
    (((Borrowing.Consumed, ⟨0⟩), (BaseTyp.Unit, ⟨0⟩)))
    (((Borrowing.Consumed, ⟨2⟩), (BaseTyp.UInt8, ⟨2⟩)))
    []
    (by simp [typecheck_expression])
    (by simp [typecheck_pattern, unit_var])
    (by simp [typecheck_statement, typecheck_expression, typecheck_pattern, union_var,
      unit_var])
    "x"

set_option maxHeartbeats 2000000 in
/-- Counterexample to claim C2: in a two-item program whose first item
fails, the second item is still checked and its diagnostic is still
emitted — the overall check fails, but it is not aborted at the first
failing item (`collect` into a vector of results does not
short-circuit). -/
theorem c2_counterexample :
    typecheck_item
        (Item.FnDecl ("f", ⟨0⟩) (FuncSig.mk [] (BaseTyp.Unit, ⟨1⟩))
          (Block.mk [(Statement.LetBinding (Pattern.WildCard, ⟨2⟩) none
            (Expression.Named (Path.mk [("y", ⟨3⟩)] none), ⟨4⟩), ⟨5⟩)] none none, ⟨6⟩)) []
      = ([Diag.unknownVar "y" ⟨4⟩], Except.error ())
    ∧ typecheck_program
        [(Item.FnDecl ("f", ⟨0⟩) (FuncSig.mk [] (BaseTyp.Unit, ⟨1⟩))
          (Block.mk [(Statement.LetBinding (Pattern.WildCard, ⟨2⟩) none
            (Expression.Named (Path.mk [("y", ⟨3⟩)] none), ⟨4⟩), ⟨5⟩)] none none, ⟨6⟩), ⟨7⟩),
         (Item.FnDecl ("g", ⟨10⟩) (FuncSig.mk [] (BaseTyp.Unit, ⟨11⟩))
          (Block.mk [(Statement.LetBinding (Pattern.WildCard, ⟨12⟩) none
            (Expression.Named (Path.mk [("z", ⟨13⟩)] none), ⟨14⟩), ⟨15⟩)] none none, ⟨16⟩), ⟨17⟩)]
      = ([Diag.unknownVar "y" ⟨4⟩, Diag.unknownVar "z" ⟨14⟩], Except.error ()) := by
  constructor
  · simp [typecheck_item, typecheck_block, typecheck_block_stmts, typecheck_statement,
      typecheck_expression, lookup_var]
  · simp [typecheck_program, typecheck_program_items, typecheck_item, typecheck_block,
      typecheck_block_stmts, typecheck_statement, typecheck_expression, lookup_var,
      check_vec, Except.isOk, Except.toBool]

/-- Claim C2, amended: program checking processes the items in order
threading one signature table; a failing item leaves the table
unchanged and contributes no new signature, but it does not abort the
check — every later item is still checked (against the table without
the failed item's signature) and its diagnostics are still emitted;
the whole check fails exactly when some item fails. -/
theorem c2_amended :
    (∀ (fn_context : FnContext) (i : Item) (sp : Span) (rest : Program) (ds : List Diag),
      typecheck_item i fn_context = (ds, Except.error ()) →
      typecheck_program_items fn_context ((i, sp) :: rest)
        = (ds ++ (typecheck_program_items fn_context rest).fst,
          Except.error () :: (typecheck_program_items fn_context rest).snd))
    ∧ (∀ (fn_context : FnContext) (i : Item) (sp : Span) (rest : Program) (ds : List Diag)
        (i1 : Item) (fn1 : FnContext),
      typecheck_item i fn_context = (ds, Except.ok (i1, fn1)) →
      typecheck_program_items fn_context ((i, sp) :: rest)
        = (ds ++ (typecheck_program_items fn1 rest).fst,
          Except.ok (i1, sp) :: (typecheck_program_items fn1 rest).snd))
    ∧ (∀ (p : Program), typecheck_program p
        = ((typecheck_program_items [] p).fst, check_vec (typecheck_program_items [] p).snd))
    ∧ (∀ (p : Program), (typecheck_program p).snd = Except.error ()
        ↔ ¬(((typecheck_program_items [] p).snd.all (fun r => r.isOk)) = true)) := by
  refine ⟨?_, ?_, ?_, ?_⟩
  · intro fn i sp rest ds h
    simp only [typecheck_program_items, h]
  · intro fn i sp rest ds i1 fn1 h
    simp only [typecheck_program_items, h]
  · intro p
    simp only [typecheck_program]
  · intro p
    simp only [typecheck_program]
    cases hitems : typecheck_program_items [] p with
    | mk dsr results =>
      by_cases hall : (results.all (fun r => r.isOk)) = true <;>
        simp [check_vec, hall]

theorem c2_amended_witness :
    typecheck_item
        (Item.FnDecl ("f", ⟨0⟩) (FuncSig.mk [] (BaseTyp.Unit, ⟨1⟩))
          (Block.mk [(Statement.LetBinding (Pattern.WildCard, ⟨2⟩) none
            (Expression.Named (Path.mk [("y", ⟨3⟩)] none), ⟨4⟩), ⟨5⟩)] none none, ⟨6⟩)) []
      = ([Diag.unknownVar "y" ⟨4⟩], Except.error ())
    ∧ typecheck_program_items []
        [(Item.FnDecl ("f", ⟨0⟩) (FuncSig.mk [] (BaseTyp.Unit, ⟨1⟩))
          (Block.mk [(Statement.LetBinding (Pattern.WildCard, ⟨2⟩) none
            (Expression.Named (Path.mk [("y", ⟨3⟩)] none), ⟨4⟩), ⟨5⟩)] none none, ⟨6⟩), ⟨7⟩),
          (Item.Use (Path.mk [("std", ⟨8⟩)] none), ⟨9⟩)]
      = ([Diag.unknownVar "y" ⟨4⟩]
          ++ (typecheck_program_items [] [(Item.Use (Path.mk [("std", ⟨8⟩)] none), ⟨9⟩)]).fst,
        Except.error ()
          :: (typecheck_program_items [] [(Item.Use (Path.mk [("std", ⟨8⟩)] none), ⟨9⟩)]).snd) := by
  have hitem : typecheck_item
      (Item.FnDecl ("f", ⟨0⟩) (FuncSig.mk [] (BaseTyp.Unit, ⟨1⟩))
        (Block.mk [(Statement.LetBinding (Pattern.WildCard, ⟨2⟩) none
          (Expression.Named (Path.mk [("y", ⟨3⟩)] none), ⟨4⟩), ⟨5⟩)] none none, ⟨6⟩)) []
      = ([Diag.unknownVar "y" ⟨4⟩], Except.error ()) := by
    simp [typecheck_item, typecheck_block, typecheck_block_stmts, typecheck_statement,
      typecheck_expression, lookup_var]
  exact ⟨hitem, c2_amended.1 []
    (Item.FnDecl ("f", ⟨0⟩) (FuncSig.mk [] (BaseTyp.Unit, ⟨1⟩))
      (Block.mk [(Statement.LetBinding (Pattern.WildCard, ⟨2⟩) none
        (Expression.Named (Path.mk [("y", ⟨3⟩)] none), ⟨4⟩), ⟨5⟩)] none none, ⟨6⟩))
    ⟨7⟩ [(Item.Use (Path.mk [("std", ⟨8⟩)] none), ⟨9⟩)] [Diag.unknownVar "y" ⟨4⟩] hitem⟩

set_option maxHeartbeats 2000000 in
/-- Counterexample to claim C9: a method call whose receiver is a
Consumed, non-copy identifier does not always fail — when the declared
parameter list is shorter than the supplied-plus-receiver list, the
zip never reaches the appended receiver, so it is never re-checked and
the call succeeds (with only the non-fatal arity diagnostic). -/
theorem c9_counterexample :
    is_copy (BaseTyp.Seq (BaseTyp.UInt8, ⟨0⟩)) = false
    ∧ typecheck_expression (Expression.MethodCall
        (Expression.Named (Path.mk [("s", ⟨4⟩)] none), ⟨5⟩) none ("m", ⟨6⟩) [], ⟨7⟩)
        [(FnKey.Method (BaseTyp.Seq (BaseTyp.UInt8, ⟨0⟩)) "m",
          FuncSig.mk [] (BaseTyp.Unit, ⟨1⟩))]
        [("s", ((Borrowing.Consumed, ⟨2⟩), (BaseTyp.Seq (BaseTyp.UInt8, ⟨0⟩), ⟨3⟩)))]
      = ([Diag.methodArityMismatch (BaseTyp.Seq (BaseTyp.UInt8, ⟨0⟩)) "m" 0 1 ⟨7⟩],
          Except.ok (((Borrowing.Consumed, ⟨6⟩), (BaseTyp.Unit, ⟨1⟩)), [])) := by
  constructor
  · simp [is_copy]
  · simp [typecheck_expression, typecheck_args, lookup_fn, lookup_var, beq_fnkey,
      beq_base, is_copy, without_var]

set_option maxHeartbeats 2000000 in
/-- Claim C9, amended: in a method call the receiver expression is
typechecked twice — once as the receiver and then again as the
appended final argument of the combined argument list.  When the
receiver is an identifier bound as Consumed with a non-copy base type,
the first check removes the name from the context, so the second
lookup cannot find it; consequently, whenever the method's declared
parameter count equals the supplied argument count plus one (so the
argument zip actually reaches the appended receiver), the call always
fails. -/
theorem c9_amended (x : Ident) (xsp ssp msp sp : Span) (topt : Option Typ) (m : Ident)
    (args : List (Spanned Expression)) (fn_context : FnContext)
    (var_context : VarContext) (t : Typ)
    (hx : lookup_var var_context x = some t)
    (hmode : t.fst.fst = Borrowing.Consumed)
    (hcopy : is_copy t.snd.fst = false) :
    lookup_var (without_var var_context x) x = none
    ∧ ((∀ sig, lookup_fn fn_context (FnKey.Method t.snd.fst m) = some sig →
          sig.args.length = args.length + 1) →
      (typecheck_expression (Expression.MethodCall
          (Expression.Named (Path.mk [(x, xsp)] none), ssp) topt (m, msp) args, sp)
          fn_context var_context).snd = Except.error ()) := by
  refine ⟨lookup_var_without_self var_context x, ?_⟩
  intro harity
  have hsel : typecheck_expression (Expression.Named (Path.mk [(x, xsp)] none), ssp)
      fn_context var_context = ([], Except.ok (t, without_var var_context x)) := by
    simp [typecheck_expression, hx, hmode, hcopy]
  simp only [typecheck_expression, hsel]
  cases hlk : lookup_fn fn_context (FnKey.Method t.snd.fst m) with
  | none => simp [hlk]
  | some sig =>
    simp only [hlk]
    have hkill := typecheck_args_kills
      (args ++ [(Expression.Named (Path.mk [(x, xsp)] none), ssp)]) sig.args fn_context
      (without_var var_context x) x xsp ssp
      (by simp [harity sig hlk])
      (List.getLast?_concat args)
      (lookup_var_without_self var_context x)
    cases hargs : typecheck_args sig.args
        (args ++ [(Expression.Named (Path.mk [(x, xsp)] none), ssp)]) fn_context
        (without_var var_context x) with
    | mk dsa r =>
      rw [hargs] at hkill
      cases r with
      | error e => rfl
      | ok c => simp at hkill

set_option maxHeartbeats 400000 in
theorem c9_amended_witness :
    lookup_var [("s", ((Borrowing.Consumed, ⟨2⟩), (BaseTyp.Seq (BaseTyp.UInt8, ⟨0⟩), ⟨3⟩)))]
        "s" = some ((Borrowing.Consumed, ⟨2⟩), (BaseTyp.Seq (BaseTyp.UInt8, ⟨0⟩), ⟨3⟩))
    ∧ is_copy (BaseTyp.Seq (BaseTyp.UInt8, ⟨0⟩)) = false
    ∧ lookup_var (without_var
        [("s", ((Borrowing.Consumed, ⟨2⟩), (BaseTyp.Seq (BaseTyp.UInt8, ⟨0⟩), ⟨3⟩)))] "s")
        "s" = none
    ∧ (typecheck_expression (Expression.MethodCall
        (Expression.Named (Path.mk [("s", ⟨4⟩)] none), ⟨5⟩) none ("m", ⟨6⟩) [], ⟨7⟩)
        [(FnKey.Method (BaseTyp.Seq (BaseTyp.UInt8, ⟨0⟩)) "m",
          FuncSig.mk [(("w", ⟨9⟩), (((Borrowing.Consumed, ⟨9⟩),
            (BaseTyp.Seq (BaseTyp.UInt8, ⟨0⟩), ⟨9⟩)), ⟨9⟩))] (BaseTyp.Unit, ⟨1⟩))]
        [("s", ((Borrowing.Consumed, ⟨2⟩), (BaseTyp.Seq (BaseTyp.UInt8, ⟨0⟩), ⟨3⟩)))]).snd
      = Except.error () := by
  have h := c9_amended "s" ⟨4⟩ ⟨5⟩ ⟨6⟩ ⟨7⟩ none "m" []
    [(FnKey.Method (BaseTyp.Seq (BaseTyp.UInt8, ⟨0⟩)) "m",
      FuncSig.mk [(("w", ⟨9⟩), (((Borrowing.Consumed, ⟨9⟩),
        (BaseTyp.Seq (BaseTyp.UInt8, ⟨0⟩), ⟨9⟩)), ⟨9⟩))] (BaseTyp.Unit, ⟨1⟩))]
    [("s", ((Borrowing.Consumed, ⟨2⟩), (BaseTyp.Seq (BaseTyp.UInt8, ⟨0⟩), ⟨3⟩)))]
    ((Borrowing.Consumed, ⟨2⟩), (BaseTyp.Seq (BaseTyp.UInt8, ⟨0⟩), ⟨3⟩))
    (by simp [lookup_var]) rfl (by simp [is_copy])
  refine ⟨by simp [lookup_var], by simp [is_copy], h.1, h.2 ?_⟩
  intro sig hsig
  simp only [lookup_fn, beq_fnkey, beq_base, List.find?] at hsig
  simp at hsig
  rw [← hsig]
  rfl

end Hacspec
